import Mathlib

/-!
# Verification of the Wilder RSI core of `modules/alpaca_rsi.py`

The module computes the Relative Strength Index from a list of closing
prices using Wilder's smoothing.  All arithmetic in the source is Python
`decimal` arithmetic with a context precision of 12 significant digits
(`getcontext().prec = 12`), rounding half-even after every operation.

We embed the computation shallowly over `ℚ`:
* a `Decimal` value is its exact rational value (the `Decimal(str(v))`
  constructor is exact, so inputs are arbitrary rationals);
* each context operation (`+`, `-`, `*`, `/`) applies `roundDec`, the
  rounding of the exact rational result to 12 significant digits with
  ties to even, exactly as the Python `decimal` context does;
* a division whose divisor is 0 raises in Python (`DivisionByZero` /
  `InvalidOperation`), modelled by `Except`.
-/

/-! ## Decimal digit length of a natural number

Structural-fuel implementation so that the kernel can evaluate it
(`Nat.log` is defined by well-founded recursion and does not reduce). -/

/-- Fueled base-10 digit counter; `fuel ≥ n` gives the correct answer. -/
def digitsLenAux : ℕ → ℕ → ℕ
  | 0, _ => 1
  | fuel + 1, n => if n < 10 then 1 else digitsLenAux fuel (n / 10) + 1

/-- Number of base-10 digits of `n` (for `n ≥ 1`). -/
def digitsLen (n : ℕ) : ℕ := digitsLenAux n n

theorem digitsLenAux_pos (fuel n : ℕ) : 1 ≤ digitsLenAux fuel n := by
  cases fuel with
  | zero => simp [digitsLenAux]
  | succ fuel =>
    simp only [digitsLenAux]
    split <;> omega

theorem digitsLenAux_spec (fuel : ℕ) : ∀ n, 1 ≤ n → n ≤ fuel →
    10 ^ (digitsLenAux fuel n - 1) ≤ n ∧ n < 10 ^ digitsLenAux fuel n := by
  induction fuel with
  | zero => intro n h1 h2; omega
  | succ fuel ih =>
    intro n h1 h2
    simp only [digitsLenAux]
    split
    · rename_i h10
      constructor
      · simpa using h1
      · simpa using h10
    · rename_i h10
      push_neg at h10
      have hm1 : 1 ≤ n / 10 := by omega
      have hm2 : n / 10 ≤ fuel := by omega
      obtain ⟨lo, hi⟩ := ih (n / 10) hm1 hm2
      have hd := digitsLenAux_pos fuel (n / 10)
      set d := digitsLenAux fuel (n / 10) with hdd
      have e1 : 10 ^ d = 10 * 10 ^ (d - 1) := by
        rw [← pow_succ']
        congr 1
        omega
      have e2 : 10 ^ (d + 1) = 10 * 10 ^ d := pow_succ' 10 d
      rw [Nat.add_sub_cancel]
      constructor
      · rw [e1]; omega
      · rw [e2]; omega

theorem digitsLen_spec {n : ℕ} (h : 1 ≤ n) :
    10 ^ (digitsLen n - 1) ≤ n ∧ n < 10 ^ digitsLen n :=
  digitsLenAux_spec n n h le_rfl

/-! ## Rounding to nearest integer, ties to even -/

/-- Round a rational to the nearest integer, ties to even
(the `ROUND_HALF_EVEN` mode of Python `decimal`, applied to the scaled
coefficient). -/
def rhe (x : ℚ) : ℤ :=
  if x - (⌊x⌋ : ℚ) < 1 / 2 then ⌊x⌋
  else if 1 / 2 < x - (⌊x⌋ : ℚ) then ⌊x⌋ + 1
  else if ⌊x⌋ % 2 = 0 then ⌊x⌋ else ⌊x⌋ + 1

theorem rhe_intCast (n : ℤ) : rhe (n : ℚ) = n := by
  norm_num [rhe]

theorem floor_le_rhe (x : ℚ) : ⌊x⌋ ≤ rhe x := by
  unfold rhe
  split_ifs <;> omega

theorem rhe_le_floor_add_one (x : ℚ) : rhe x ≤ ⌊x⌋ + 1 := by
  unfold rhe
  split_ifs <;> omega

theorem rhe_cast_le (x : ℚ) : (rhe x : ℚ) ≤ x + 1 / 2 := by
  have hfl : (⌊x⌋ : ℚ) ≤ x := Int.floor_le x
  unfold rhe
  split_ifs with h1 h2 h3
  · linarith
  · push_cast; linarith
  · linarith
  · push_cast
    have : x - (⌊x⌋ : ℚ) = 1 / 2 := le_antisymm (not_lt.mp h2) (not_lt.mp h1)
    linarith

theorem le_rhe_cast (x : ℚ) : x - 1 / 2 ≤ (rhe x : ℚ) := by
  have hfl : (⌊x⌋ : ℚ) ≤ x := Int.floor_le x
  have hlt : x < (⌊x⌋ : ℚ) + 1 := Int.lt_floor_add_one x
  unfold rhe
  split_ifs with h1 h2 h3
  · linarith
  · push_cast; linarith
  · have : x - (⌊x⌋ : ℚ) = 1 / 2 := le_antisymm (not_lt.mp h2) (not_lt.mp h1)
    linarith
  · push_cast; linarith

/-! ## Decimal exponent of a rational

`qexp q` is the unique `e` with `10 ^ e ≤ |q| < 10 ^ (e + 1)` for `q ≠ 0`. -/

/-- Floor of the base-10 logarithm of `|q|`, computed from the digit
lengths of numerator and denominator. -/
def qexp (q : ℚ) : ℤ :=
  if q = 0 then 0
  else if (10 : ℚ) ^ ((digitsLen q.num.natAbs : ℤ) - (digitsLen q.den : ℤ)) ≤ |q|
    then (digitsLen q.num.natAbs : ℤ) - (digitsLen q.den : ℤ)
    else (digitsLen q.num.natAbs : ℤ) - (digitsLen q.den : ℤ) - 1

theorem abs_eq_natAbs_div_den (q : ℚ) : |q| = (q.num.natAbs : ℚ) / (q.den : ℚ) := by
  conv_lhs => rw [← Rat.num_div_den q]
  rw [abs_div, Int.cast_natAbs, Int.cast_abs, Nat.abs_cast]

theorem qexp_spec {q : ℚ} (hq : q ≠ 0) :
    (10 : ℚ) ^ qexp q ≤ |q| ∧ |q| < (10 : ℚ) ^ (qexp q + 1) := by
  have hnum : 1 ≤ q.num.natAbs := by
    have h := Rat.num_ne_zero.mpr hq
    omega
  have hden : 1 ≤ q.den := q.den_pos
  obtain ⟨la_lo, la_hi⟩ := digitsLen_spec hnum
  obtain ⟨lb_lo, lb_hi⟩ := digitsLen_spec hden
  have hda : 1 ≤ digitsLen q.num.natAbs := by
    have := digitsLenAux_pos q.num.natAbs q.num.natAbs
    simpa [digitsLen] using this
  have hdb : 1 ≤ digitsLen q.den := by
    have := digitsLenAux_pos q.den q.den
    simpa [digitsLen] using this
  have habs : |q| = (q.num.natAbs : ℚ) / (q.den : ℚ) := abs_eq_natAbs_div_den q
  have hb0 : (0 : ℚ) < (q.den : ℚ) := by positivity
  have hcast_da : ((digitsLen q.num.natAbs : ℤ) - 1) =
      (((digitsLen q.num.natAbs - 1 : ℕ) : ℤ)) := by omega
  have hcast_db : ((digitsLen q.den : ℤ) - 1) = (((digitsLen q.den - 1 : ℕ) : ℤ)) := by omega
  have hAhi : (q.num.natAbs : ℚ) < (10 : ℚ) ^ ((digitsLen q.num.natAbs : ℤ)) := by
    rw [zpow_natCast]
    exact_mod_cast la_hi
  have hAlo : (10 : ℚ) ^ ((digitsLen q.num.natAbs : ℤ) - 1) ≤ (q.num.natAbs : ℚ) := by
    rw [hcast_da, zpow_natCast]
    exact_mod_cast la_lo
  have hBhi : (q.den : ℚ) < (10 : ℚ) ^ ((digitsLen q.den : ℤ)) := by
    rw [zpow_natCast]
    exact_mod_cast lb_hi
  have hBlo : (10 : ℚ) ^ ((digitsLen q.den : ℤ) - 1) ≤ (q.den : ℚ) := by
    rw [hcast_db, zpow_natCast]
    exact_mod_cast lb_lo
  have key_hi : |q| <
      (10 : ℚ) ^ ((digitsLen q.num.natAbs : ℤ) - (digitsLen q.den : ℤ) + 1) := by
    rw [habs, div_lt_iff₀ hb0]
    calc (q.num.natAbs : ℚ) < (10 : ℚ) ^ ((digitsLen q.num.natAbs : ℤ)) := hAhi
      _ = (10 : ℚ) ^ ((digitsLen q.num.natAbs : ℤ) - (digitsLen q.den : ℤ) + 1) *
            (10 : ℚ) ^ ((digitsLen q.den : ℤ) - 1) := by
          rw [← zpow_add₀ (by norm_num : (10 : ℚ) ≠ 0)]
          congr 1
          omega
      _ ≤ (10 : ℚ) ^ ((digitsLen q.num.natAbs : ℤ) - (digitsLen q.den : ℤ) + 1) *
            (q.den : ℚ) := by
          have hpow : (0 : ℚ) <
              (10 : ℚ) ^ ((digitsLen q.num.natAbs : ℤ) - (digitsLen q.den : ℤ) + 1) :=
            zpow_pos (by norm_num) _
          exact mul_le_mul_of_nonneg_left hBlo hpow.le
  have key_lo :
      (10 : ℚ) ^ ((digitsLen q.num.natAbs : ℤ) - (digitsLen q.den : ℤ) - 1) < |q| := by
    rw [habs, lt_div_iff₀ hb0]
    calc (10 : ℚ) ^ ((digitsLen q.num.natAbs : ℤ) - (digitsLen q.den : ℤ) - 1) *
          (q.den : ℚ)
        < (10 : ℚ) ^ ((digitsLen q.num.natAbs : ℤ) - (digitsLen q.den : ℤ) - 1) *
            (10 : ℚ) ^ ((digitsLen q.den : ℤ)) := by
          have hpow : (0 : ℚ) <
              (10 : ℚ) ^ ((digitsLen q.num.natAbs : ℤ) - (digitsLen q.den : ℤ) - 1) :=
            zpow_pos (by norm_num) _
          exact mul_lt_mul_of_pos_left hBhi hpow
      _ = (10 : ℚ) ^ ((digitsLen q.num.natAbs : ℤ) - 1) := by
          rw [← zpow_add₀ (by norm_num : (10 : ℚ) ≠ 0)]
          congr 1
          omega
      _ ≤ (q.num.natAbs : ℚ) := hAlo
  unfold qexp
  rw [if_neg hq]
  split_ifs with hcond
  · exact ⟨hcond, key_hi⟩
  · push_neg at hcond
    constructor
    · exact key_lo.le
    · have : (digitsLen q.num.natAbs : ℤ) - (digitsLen q.den : ℤ) - 1 + 1 =
          (digitsLen q.num.natAbs : ℤ) - (digitsLen q.den : ℤ) := by omega
      rw [this]
      exact hcond

theorem qexp_neg (q : ℚ) : qexp (-q) = qexp q := by
  unfold qexp
  rcases eq_or_ne q 0 with rfl | hq
  · simp
  · rw [if_neg (neg_ne_zero.mpr hq), if_neg hq, Rat.num_neg_eq_neg_num,
      Rat.den_neg_eq_den, Int.natAbs_neg, abs_neg]

theorem qexp_mono {x y : ℚ} (hx : x ≠ 0) (hy : y ≠ 0) (h : |x| ≤ |y|) :
    qexp x ≤ qexp y := by
  have h1 := (qexp_spec hx).1
  have h2 := (qexp_spec hy).2
  have hlt : (10 : ℚ) ^ qexp x < (10 : ℚ) ^ (qexp y + 1) :=
    lt_of_le_of_lt (h1.trans h) h2
  have := (zpow_lt_zpow_iff_right₀ (by norm_num : (1 : ℚ) < 10)).mp hlt
  omega

theorem rhe_mono {x y : ℚ} (h : x ≤ y) : rhe x ≤ rhe y := by
  have hf : ⌊x⌋ ≤ ⌊y⌋ := Int.floor_le_floor h
  rcases lt_or_eq_of_le hf with hlt | heq
  · have h1 := rhe_le_floor_add_one x
    have h2 := floor_le_rhe y
    omega
  · have hr : x - (⌊x⌋ : ℚ) ≤ y - (⌊y⌋ : ℚ) := by
      rw [← heq]; linarith
    unfold rhe
    rw [← heq]
    split_ifs <;> first
      | omega
      | (exfalso; linarith)

/-! ## Rounding to 12 significant digits, ties to even

`roundDec` is the action of a Python `decimal` context with
`prec = 12` and `ROUND_HALF_EVEN` on the exact rational result of an
arithmetic operation. -/

/-- Round a positive rational to 12 significant digits, half-even. -/
def roundPos (q : ℚ) : ℚ :=
  (rhe (q * (10 : ℚ) ^ (11 - qexp q)) : ℚ) * (10 : ℚ) ^ (qexp q - 11)

/-- Round a rational to 12 significant digits, half-even. -/
def roundDec (q : ℚ) : ℚ :=
  if q = 0 then 0 else if 0 < q then roundPos q else -roundPos (-q)

theorem ten_ne_zero' : (10 : ℚ) ≠ 0 := by norm_num

theorem ten_zpow_eleven : (10 : ℚ) ^ (11 : ℤ) = 100000000000 := by norm_num

theorem ten_zpow_twelve : (10 : ℚ) ^ (12 : ℤ) = 1000000000000 := by norm_num

theorem roundPos_ge {q : ℚ} (hq : 0 < q) : (10 : ℚ) ^ qexp q ≤ roundPos q := by
  have h1 := (qexp_spec hq.ne').1
  rw [abs_of_pos hq] at h1
  have hp : (0 : ℚ) < (10 : ℚ) ^ (11 - qexp q) := zpow_pos (by norm_num) _
  have h2 : (100000000000 : ℚ) ≤ q * (10 : ℚ) ^ (11 - qexp q) := by
    calc (100000000000 : ℚ)
        = (10 : ℚ) ^ qexp q * (10 : ℚ) ^ (11 - qexp q) := by
          rw [← zpow_add₀ ten_ne_zero', show qexp q + (11 - qexp q) = (11 : ℤ) by ring,
            ten_zpow_eleven]
      _ ≤ q * (10 : ℚ) ^ (11 - qexp q) := mul_le_mul_of_nonneg_right h1 hp.le
  have h4 : (100000000000 : ℤ) ≤ rhe (q * (10 : ℚ) ^ (11 - qexp q)) := by
    calc (100000000000 : ℤ) = rhe ((100000000000 : ℤ) : ℚ) := (rhe_intCast _).symm
      _ ≤ rhe (q * (10 : ℚ) ^ (11 - qexp q)) := rhe_mono (by push_cast; linarith)
  calc (10 : ℚ) ^ qexp q
      = (100000000000 : ℚ) * (10 : ℚ) ^ (qexp q - 11) := by
        rw [← ten_zpow_eleven, ← zpow_add₀ ten_ne_zero']
        congr 1
        ring
    _ ≤ (rhe (q * (10 : ℚ) ^ (11 - qexp q)) : ℚ) * (10 : ℚ) ^ (qexp q - 11) := by
        apply mul_le_mul_of_nonneg_right _ (zpow_pos (by norm_num : (0:ℚ) < 10) _).le
        exact_mod_cast h4

theorem roundPos_le {q : ℚ} (hq : 0 < q) : roundPos q ≤ (10 : ℚ) ^ (qexp q + 1) := by
  have h1 := (qexp_spec hq.ne').2
  rw [abs_of_pos hq] at h1
  have hp : (0 : ℚ) < (10 : ℚ) ^ (11 - qexp q) := zpow_pos (by norm_num) _
  have h2 : q * (10 : ℚ) ^ (11 - qexp q) < (1000000000000 : ℚ) := by
    calc q * (10 : ℚ) ^ (11 - qexp q)
        < (10 : ℚ) ^ (qexp q + 1) * (10 : ℚ) ^ (11 - qexp q) :=
          mul_lt_mul_of_pos_right h1 hp
      _ = (1000000000000 : ℚ) := by
          rw [← zpow_add₀ ten_ne_zero',
            show qexp q + 1 + (11 - qexp q) = (12 : ℤ) by ring, ten_zpow_twelve]
  have h3 : rhe (q * (10 : ℚ) ^ (11 - qexp q)) ≤ 1000000000000 := by
    have hb := rhe_cast_le (q * (10 : ℚ) ^ (11 - qexp q))
    have hlt : (rhe (q * (10 : ℚ) ^ (11 - qexp q)) : ℚ) < ((1000000000001 : ℤ) : ℚ) := by
      push_cast
      linarith
    have hlt' : rhe (q * (10 : ℚ) ^ (11 - qexp q)) < (1000000000001 : ℤ) := by
      exact_mod_cast hlt
    omega
  calc roundPos q
      ≤ (1000000000000 : ℚ) * (10 : ℚ) ^ (qexp q - 11) := by
        unfold roundPos
        apply mul_le_mul_of_nonneg_right _ (zpow_pos (by norm_num : (0:ℚ) < 10) _).le
        exact_mod_cast h3
    _ = (10 : ℚ) ^ (qexp q + 1) := by
        rw [← ten_zpow_twelve, ← zpow_add₀ ten_ne_zero']
        congr 1
        ring

theorem roundPos_pos {q : ℚ} (hq : 0 < q) : 0 < roundPos q :=
  lt_of_lt_of_le (zpow_pos (by norm_num : (0:ℚ) < 10) _) (roundPos_ge hq)

theorem roundPos_mono {x y : ℚ} (hx : 0 < x) (hy : 0 < y) (h : x ≤ y) :
    roundPos x ≤ roundPos y := by
  have he : qexp x ≤ qexp y := by
    apply qexp_mono hx.ne' hy.ne'
    rwa [abs_of_pos hx, abs_of_pos hy]
  rcases eq_or_lt_of_le he with heq | hlt
  · unfold roundPos
    rw [← heq]
    have hm := rhe_mono
      (mul_le_mul_of_nonneg_right h (zpow_pos (by norm_num : (0:ℚ) < 10) (11 - qexp x)).le)
    exact mul_le_mul_of_nonneg_right (by exact_mod_cast hm)
      (zpow_pos (by norm_num : (0:ℚ) < 10) _).le
  · calc roundPos x ≤ (10 : ℚ) ^ (qexp x + 1) := roundPos_le hx
      _ ≤ (10 : ℚ) ^ qexp y := zpow_le_zpow_right₀ (by norm_num) (by omega)
      _ ≤ roundPos y := roundPos_ge hy

theorem roundDec_zero : roundDec 0 = 0 := by simp [roundDec]

theorem roundDec_pos {q : ℚ} (h : 0 < q) : 0 < roundDec q := by
  rw [roundDec, if_neg h.ne', if_pos h]
  exact roundPos_pos h

theorem roundDec_neg' {q : ℚ} (h : q < 0) : roundDec q < 0 := by
  rw [roundDec, if_neg h.ne, if_neg (not_lt.mpr h.le)]
  simpa using roundPos_pos (neg_pos.mpr h)

theorem roundDec_nonneg {q : ℚ} (h : 0 ≤ q) : 0 ≤ roundDec q := by
  rcases eq_or_lt_of_le h with rfl | hq
  · rw [roundDec_zero]
  · exact (roundDec_pos hq).le

theorem roundDec_mono {x y : ℚ} (h : x ≤ y) : roundDec x ≤ roundDec y := by
  rcases lt_trichotomy x 0 with hx | rfl | hx
  · rcases lt_trichotomy y 0 with hy | rfl | hy
    · rw [roundDec, if_neg hx.ne, if_neg (not_lt.mpr hx.le),
        roundDec, if_neg hy.ne, if_neg (not_lt.mpr hy.le)]
      have := roundPos_mono (neg_pos.mpr hy) (neg_pos.mpr hx) (by linarith)
      linarith
    · rw [roundDec_zero]
      exact (roundDec_neg' hx).le
    · exact le_of_lt (lt_trans (roundDec_neg' hx) (roundDec_pos hy))
  · rw [roundDec_zero]
    exact roundDec_nonneg h
  · have hy : 0 < y := lt_of_lt_of_le hx h
    rw [roundDec, if_neg hx.ne', if_pos hx, roundDec, if_neg hy.ne', if_pos hy]
    exact roundPos_mono hx hy h

theorem roundPos_eq_self {m e : ℤ} (hm0 : 0 < m) (hm : m < 1000000000000) :
    roundPos ((m : ℚ) * (10 : ℚ) ^ e) = (m : ℚ) * (10 : ℚ) ^ e := by
  have hq : 0 < (m : ℚ) * (10 : ℚ) ^ e :=
    mul_pos (by exact_mod_cast hm0) (zpow_pos (by norm_num) _)
  have hupper : (m : ℚ) * (10 : ℚ) ^ e < (10 : ℚ) ^ (e + 12) := by
    calc (m : ℚ) * (10 : ℚ) ^ e
        < (1000000000000 : ℚ) * (10 : ℚ) ^ e := by
          apply mul_lt_mul_of_pos_right _ (zpow_pos (by norm_num) _)
          exact_mod_cast hm
      _ = (10 : ℚ) ^ (e + 12) := by
          rw [← ten_zpow_twelve, ← zpow_add₀ ten_ne_zero']
          congr 1
          ring
  have hle : qexp ((m : ℚ) * (10 : ℚ) ^ e) ≤ e + 11 := by
    have h1 := (qexp_spec hq.ne').1
    rw [abs_of_pos hq] at h1
    have hlt : (10 : ℚ) ^ qexp ((m : ℚ) * (10 : ℚ) ^ e) < (10 : ℚ) ^ (e + 12) :=
      lt_of_le_of_lt h1 hupper
    have := (zpow_lt_zpow_iff_right₀ (by norm_num : (1 : ℚ) < 10)).mp hlt
    omega
  set E := qexp ((m : ℚ) * (10 : ℚ) ^ e) with hE
  set k : ℕ := (e + 11 - E).toNat with hk
  have hk' : (k : ℤ) = e + 11 - E := Int.toNat_of_nonneg (by omega)
  have harg : (m : ℚ) * (10 : ℚ) ^ e * (10 : ℚ) ^ (11 - E) = ((m * 10 ^ k : ℤ) : ℚ) := by
    push_cast
    rw [mul_assoc, ← zpow_add₀ ten_ne_zero',
      show e + (11 - E) = (k : ℤ) by omega, zpow_natCast]
  rw [roundPos, ← hE, harg, rhe_intCast]
  push_cast
  rw [mul_assoc, ← zpow_natCast (10 : ℚ) k, ← zpow_add₀ ten_ne_zero',
    show (k : ℤ) + (E - 11) = e by omega]

theorem roundDec_eq_self {m e : ℤ} (hm : m.natAbs < 1000000000000) :
    roundDec ((m : ℚ) * (10 : ℚ) ^ e) = (m : ℚ) * (10 : ℚ) ^ e := by
  have hten : (0 : ℚ) < (10 : ℚ) ^ e := zpow_pos (by norm_num) _
  rcases lt_trichotomy m 0 with hm0 | rfl | hm0
  · have hq : (m : ℚ) * (10 : ℚ) ^ e < 0 :=
      mul_neg_of_neg_of_pos (by exact_mod_cast hm0) hten
    rw [roundDec, if_neg hq.ne, if_neg (not_lt.mpr hq.le), ← neg_mul]
    have hcast : (-(m : ℚ)) = ((-m : ℤ) : ℚ) := by push_cast; ring
    rw [hcast, roundPos_eq_self (by omega) (by omega)]
    push_cast
    ring
  · simp [roundDec]
  · have hq : 0 < (m : ℚ) * (10 : ℚ) ^ e :=
      mul_pos (by exact_mod_cast hm0) hten
    rw [roundDec, if_neg hq.ne', if_pos hq]
    exact roundPos_eq_self hm0 (by omega)

theorem roundDec_one : roundDec 1 = 1 := by
  have h := roundDec_eq_self (m := 1) (e := 0) (by norm_num)
  simpa using h

theorem roundDec_hundred : roundDec 100 = 100 := by
  have h := roundDec_eq_self (m := 100) (e := 0) (by norm_num)
  simpa using h

theorem one_le_roundDec {q : ℚ} (h : 1 ≤ q) : 1 ≤ roundDec q := by
  calc (1 : ℚ) = roundDec 1 := roundDec_one.symm
    _ ≤ roundDec q := roundDec_mono h

theorem roundDec_le_hundred {q : ℚ} (h : q ≤ 100) : roundDec q ≤ 100 := by
  calc roundDec q ≤ roundDec 100 := roundDec_mono h
    _ = 100 := roundDec_hundred

/-! ## Embedding of `modules/alpaca_rsi.py`

Context-rounded arithmetic operations (every Python `decimal` binary
operation rounds its exact result, see `getcontext().prec = 12`). -/

/-- `x + y` under the decimal context. -/
def decAdd (x y : ℚ) : ℚ := roundDec (x + y)

/-- `x - y` under the decimal context. -/
def decSub (x y : ℚ) : ℚ := roundDec (x - y)

/-- `x * y` under the decimal context. -/
def decMul (x y : ℚ) : ℚ := roundDec (x * y)

/-- `x / y` under the decimal context, total variant (all call sites are
proved to have a nonzero divisor). -/
def divD (x y : ℚ) : ℚ := roundDec (x / y)

/-- Errors raised by the module: `insufficientData` is the `ValueError`
of `compute_rsi_from_closes`, `notEnoughBars` the `RuntimeError` of
`get_rsi_from_alpaca`, and `divByZero` the decimal
`DivisionByZero`/`InvalidOperation` signals. -/
inductive RsiErr where
  | insufficientData
  | notEnoughBars
  | divByZero
deriving DecidableEq, Repr

/-- `x / y` under the decimal context; dividing by zero raises. -/
def decDiv (x y : ℚ) : Except RsiErr ℚ :=
  if y = 0 then .error .divByZero else .ok (roundDec (x / y))

/-- The list `closes_d[i] - closes_d[i-1]`, `i = 1 .. n-1` (line 32-33). -/
def diffsOf (closes : List ℚ) : List ℚ :=
  List.zipWith (fun cur prev => decSub cur prev) closes.tail closes

/-- Gain contributed by one difference (lines 34-38). -/
def gainOf (d : ℚ) : ℚ := if 0 < d then d else 0

/-- Loss contributed by one difference (lines 34-39). -/
def lossOf (d : ℚ) : ℚ := if 0 < d then 0 else -d

/-- `sum(seed, Decimal('0')) / Decimal(period)` (lines 42-46): the seed
simple average of the first `period` entries. -/
def seedAvg (p : ℕ) (l : List ℚ) : ℚ := divD ((l.take p).foldl decAdd 0) (p : ℚ)

/-- One Wilder smoothing update
`(avg * Decimal(period - 1) + x) / Decimal(period)` (lines 52-53). -/
def smoothStep (p : ℕ) (avg x : ℚ) : ℚ :=
  divD (decAdd (decMul avg ((p : ℚ) - 1)) x) (p : ℚ)

/-- Seed average followed by the Wilder smoothing loop over the
remaining entries (lines 42-53). -/
def smoothAvg (p : ℕ) (l : List ℚ) : ℚ :=
  (l.drop p).foldl (smoothStep p) (seedAvg p l)

/-- Final RSI from the smoothed averages (lines 55-60). -/
def finalRsi (ag al : ℚ) : ℚ :=
  if al = 0 then 100 else decSub 100 (divD 100 (decAdd 1 (divD ag al)))

/-- Error-free core of `compute_rsi_from_closes` past the length check,
assuming a nonzero period (so no division raises). -/
def rsiCore (closes : List ℚ) (p : ℕ) : ℚ :=
  finalRsi (smoothAvg p ((diffsOf closes).map gainOf))
    (smoothAvg p ((diffsOf closes).map lossOf))

/-- `compute_rsi_from_closes` (lines 16-60), statement by statement:
length check, differences, gain/loss split, seed averages, Wilder
smoothing loop (a single loop updating both averages), zero-loss early
return, and the final `100 - 100 / (1 + rs)`. -/
def compute_rsi_from_closes (closes : List ℚ) (period : ℕ) : Except RsiErr ℚ :=
  if closes.length < period + 1 then .error .insufficientData
  else do
    let gains := (diffsOf closes).map gainOf
    let losses := (diffsOf closes).map lossOf
    let avg_gain ← decDiv ((gains.take period).foldl decAdd 0) (period : ℚ)
    let avg_loss ← decDiv ((losses.take period).foldl decAdd 0) (period : ℚ)
    let avgs ← (List.zip (gains.drop period) (losses.drop period)).foldlM
      (fun (st : ℚ × ℚ) (gl : ℚ × ℚ) => do
        let ag ← decDiv (decAdd (decMul st.1 ((period : ℚ) - 1)) gl.1) (period : ℚ)
        let al ← decDiv (decAdd (decMul st.2 ((period : ℚ) - 1)) gl.2) (period : ℚ)
        pure (ag, al)) (avg_gain, avg_loss)
    if avgs.2 = 0 then pure 100
    else do
      let rs ← decDiv avgs.1 avgs.2
      let frac ← decDiv 100 (decAdd 1 rs)
      pure (decSub 100 frac)

/-- The post-fetch logic of `get_rsi_from_alpaca` (lines 197-204): the
fetched chronological closes are the `closes` argument; the function
checks the length, truncates to the most recent `period + 1` closes and
calls `compute_rsi_from_closes`. -/
def get_rsi_from_alpaca (closes : List ℚ) (period : ℕ) : Except RsiErr ℚ :=
  if closes.length < period + 1 then .error .notEnoughBars
  else compute_rsi_from_closes (closes.drop (closes.length - (period + 1))) period


/-! ## Sign invariants of the computation -/

theorem gainOf_nonneg (d : ℚ) : 0 ≤ gainOf d := by
  rw [gainOf]
  split_ifs with h
  · exact h.le
  · exact le_refl 0

theorem lossOf_nonneg (d : ℚ) : 0 ≤ lossOf d := by
  rw [lossOf]
  split_ifs with h
  · exact le_refl 0
  · push_neg at h
    linarith

theorem foldl_decAdd_nonneg {l : List ℚ} {a : ℚ} (ha : 0 ≤ a)
    (hl : ∀ x ∈ l, 0 ≤ x) : 0 ≤ l.foldl decAdd a := by
  induction l generalizing a with
  | nil => exact ha
  | cons x t ih =>
    rw [List.foldl_cons]
    exact ih (roundDec_nonneg (add_nonneg ha (hl x (List.mem_cons_self x t)))) fun y hy =>
      hl y (List.mem_cons_of_mem x hy)

theorem seedAvg_nonneg {p : ℕ} {l : List ℚ} (hl : ∀ x ∈ l, 0 ≤ x) :
    0 ≤ seedAvg p l := by
  apply roundDec_nonneg
  apply div_nonneg _ (by positivity)
  exact foldl_decAdd_nonneg le_rfl fun x hx => hl x (List.take_subset p l hx)

theorem smoothStep_nonneg {p : ℕ} (hp : 1 ≤ p) {avg x : ℚ} (h1 : 0 ≤ avg)
    (h2 : 0 ≤ x) : 0 ≤ smoothStep p avg x := by
  have hcast : (0 : ℚ) ≤ (p : ℚ) - 1 := by
    have : (1 : ℚ) ≤ (p : ℚ) := by exact_mod_cast hp
    linarith
  apply roundDec_nonneg
  apply div_nonneg _ (by positivity)
  exact roundDec_nonneg (add_nonneg (roundDec_nonneg (mul_nonneg h1 hcast)) h2)

theorem foldl_smoothStep_nonneg {p : ℕ} (hp : 1 ≤ p) {l : List ℚ} {a : ℚ}
    (ha : 0 ≤ a) (hl : ∀ x ∈ l, 0 ≤ x) : 0 ≤ l.foldl (smoothStep p) a := by
  induction l generalizing a with
  | nil => exact ha
  | cons x t ih =>
    rw [List.foldl_cons]
    exact ih (smoothStep_nonneg hp ha (hl x (List.mem_cons_self x t))) fun y hy =>
      hl y (List.mem_cons_of_mem x hy)

theorem smoothAvg_nonneg {p : ℕ} (hp : 1 ≤ p) {l : List ℚ}
    (hl : ∀ x ∈ l, 0 ≤ x) : 0 ≤ smoothAvg p l := by
  rw [smoothAvg]
  exact foldl_smoothStep_nonneg hp (seedAvg_nonneg hl) fun x hx =>
    hl x (List.drop_subset p l hx)

theorem mapped_gains_nonneg (closes : List ℚ) :
    ∀ x ∈ (diffsOf closes).map gainOf, 0 ≤ x := by
  intro x hx
  obtain ⟨d, _, rfl⟩ := List.mem_map.mp hx
  exact gainOf_nonneg d

theorem mapped_losses_nonneg (closes : List ℚ) :
    ∀ x ∈ (diffsOf closes).map lossOf, 0 ≤ x := by
  intro x hx
  obtain ⟨d, _, rfl⟩ := List.mem_map.mp hx
  exact lossOf_nonneg d

/-! ## The monadic definition agrees with the total core -/

theorem except_bind_ok {ε α β : Type} (a : α) (f : α → Except ε β) :
    (Except.ok a >>= f) = f a := rfl

theorem foldlM_except_ok {α β : Type} (f : β → α → β) (g : β → α → Except RsiErr β)
    (hfg : ∀ b a, g b a = .ok (f b a)) :
    ∀ (l : List α) (b : β), l.foldlM g b = .ok (l.foldl f b) := by
  intro l
  induction l with
  | nil => intro b; rfl
  | cons x t ih =>
    intro b
    rw [List.foldlM_cons, hfg, except_bind_ok, ih, List.foldl_cons]

theorem foldl_zip_smooth (p : ℕ) :
    ∀ (gs ls : List ℚ) (a b : ℚ), gs.length = ls.length →
      (List.zip gs ls).foldl
          (fun st gl => (smoothStep p st.1 gl.1, smoothStep p st.2 gl.2)) (a, b)
        = (gs.foldl (smoothStep p) a, ls.foldl (smoothStep p) b) := by
  intro gs
  induction gs with
  | nil =>
    intro ls a b h
    cases ls with
    | nil => rfl
    | cons l ls => simp at h
  | cons g gs ih =>
    intro ls a b h
    cases ls with
    | nil => simp at h
    | cons l ls =>
      rw [List.zip_cons_cons, List.foldl_cons, List.foldl_cons, List.foldl_cons]
      exact ih ls _ _ (by simpa using h)

theorem compute_rsi_eq_ok (closes : List ℚ) (p : ℕ) (hp : 1 ≤ p)
    (hlen : p + 1 ≤ closes.length) :
    compute_rsi_from_closes closes p = .ok (rsiCore closes p) := by
  have hp0 : ((p : ℚ)) ≠ 0 := Nat.cast_ne_zero.mpr (by omega)
  have hAG : 0 ≤ smoothAvg p ((diffsOf closes).map gainOf) :=
    smoothAvg_nonneg hp (mapped_gains_nonneg closes)
  have hAL : 0 ≤ smoothAvg p ((diffsOf closes).map lossOf) :=
    smoothAvg_nonneg hp (mapped_losses_nonneg closes)
  rw [compute_rsi_from_closes, if_neg (by omega)]
  dsimp only
  rw [show decDiv (((diffsOf closes).map gainOf |>.take p).foldl decAdd 0) (p : ℚ)
      = .ok (seedAvg p ((diffsOf closes).map gainOf)) by
    rw [decDiv, if_neg hp0, seedAvg, divD]]
  rw [except_bind_ok]
  rw [show decDiv (((diffsOf closes).map lossOf |>.take p).foldl decAdd 0) (p : ℚ)
      = .ok (seedAvg p ((diffsOf closes).map lossOf)) by
    rw [decDiv, if_neg hp0, seedAvg, divD]]
  rw [except_bind_ok]
  rw [foldlM_except_ok (fun st gl => (smoothStep p st.1 gl.1, smoothStep p st.2 gl.2))
    _ (by
      intro st gl
      rw [show decDiv (decAdd (decMul st.1 ((p : ℚ) - 1)) gl.1) (p : ℚ)
          = .ok (smoothStep p st.1 gl.1) by rw [decDiv, if_neg hp0, smoothStep, divD]]
      rw [except_bind_ok]
      rw [show decDiv (decAdd (decMul st.2 ((p : ℚ) - 1)) gl.2) (p : ℚ)
          = .ok (smoothStep p st.2 gl.2) by rw [decDiv, if_neg hp0, smoothStep, divD]]
      rfl)]
  rw [except_bind_ok]
  rw [foldl_zip_smooth p _ _ _ _ (by simp)]
  rw [← smoothAvg, ← smoothAvg]
  set AG := smoothAvg p ((diffsOf closes).map gainOf) with hAGdef
  set AL := smoothAvg p ((diffsOf closes).map lossOf) with hALdef
  rcases eq_or_ne AL 0 with h0 | h0
  · rw [if_pos h0, rsiCore, ← hAGdef, ← hALdef, finalRsi, if_pos h0]
    rfl
  · rw [if_neg h0]
    have hALpos : 0 < AL := lt_of_le_of_ne hAL (Ne.symm h0)
    have hrs : 0 ≤ divD AG AL := roundDec_nonneg (div_nonneg hAG hALpos.le)
    have hdenom : decAdd 1 (divD AG AL) ≠ 0 := by
      have : (1 : ℚ) ≤ decAdd 1 (divD AG AL) := one_le_roundDec (by linarith)
      linarith
    rw [show decDiv AG AL = .ok (divD AG AL) by rw [decDiv, if_neg h0, divD]]
    rw [except_bind_ok]
    rw [show decDiv 100 (decAdd 1 (divD AG AL)) = .ok (divD 100 (decAdd 1 (divD AG AL)))
      by rw [decDiv, if_neg hdenom]; rfl]
    rw [except_bind_ok]
    rw [rsiCore, ← hAGdef, ← hALdef, finalRsi, if_neg h0]
    rfl

/-! ## Reference formulation of Wilder's algorithm, following the
specification text

The spec describes the algorithm by indexed recurrences: successive
differences, `gain[i] = max(diff[i], 0)`, `loss[i] = max(-diff[i], 0)`,
seed simple averages of the first `period` entries, then
`avg = (avg * (period - 1) + gain[i]) / period` for `i` from `period`
to `n - 2`, strictly chronologically.  Arithmetic is carried out at the
decimal precision the spec requires (the module's 12 significant
digits). -/

/-- `gain[i] = max(diff[i], 0)` where `diff[i] = closes[i+1] - closes[i]`. -/
def specGain (closes : List ℚ) (i : ℕ) : ℚ :=
  max (decSub (closes.getD (i + 1) 0) (closes.getD i 0)) 0

/-- `loss[i] = max(-diff[i], 0)`. -/
def specLoss (closes : List ℚ) (i : ℕ) : ℚ :=
  max (-(decSub (closes.getD (i + 1) 0) (closes.getD i 0))) 0

/-- Chronological sum `f 0 + f 1 + ... + f (k-1)`. -/
def specSum (f : ℕ → ℚ) : ℕ → ℚ
  | 0 => 0
  | k + 1 => decAdd (specSum f k) (f k)

/-- Wilder recursion applied chronologically to
`f i, f (i+1), ..., f (i+fuel-1)`, one step at a time. -/
def specSmoothFrom (p : ℕ) (f : ℕ → ℚ) : ℕ → ℕ → ℚ → ℚ
  | _, 0, avg => avg
  | i, fuel + 1, avg =>
    specSmoothFrom p f (i + 1) fuel (divD (decAdd (decMul avg ((p : ℚ) - 1)) (f i)) p)

/-- The reference Wilder RSI exactly as the specification words it:
seed simple averages over the first `period` gains/losses, the
recursion over indices `period .. n-2`, and
`100 - 100 / (1 + avg_gain / avg_loss)` when `avg_loss` is nonzero
(`100` otherwise). -/
def wilderSpec (closes : List ℚ) (p : ℕ) : ℚ :=
  if specSmoothFrom p (specLoss closes) p (closes.length - 1 - p)
      (divD (specSum (specLoss closes) p) p) = 0 then 100
  else decSub 100 (divD 100 (decAdd 1 (divD
    (specSmoothFrom p (specGain closes) p (closes.length - 1 - p)
      (divD (specSum (specGain closes) p) p))
    (specSmoothFrom p (specLoss closes) p (closes.length - 1 - p)
      (divD (specSum (specLoss closes) p) p)))))

theorem diffsOf_length (closes : List ℚ) :
    (diffsOf closes).length = closes.length - 1 := by
  simp [diffsOf]

theorem diffsOf_getD {closes : List ℚ} {i : ℕ} (h : i < closes.length - 1) :
    (diffsOf closes).getD i 0 = decSub (closes.getD (i + 1) 0) (closes.getD i 0) := by
  have hlen : i < (diffsOf closes).length := by rw [diffsOf_length]; omega
  have h1 : i + 1 < closes.length := by omega
  have h0 : i < closes.length := by omega
  rw [List.getD_eq_getElem _ _ hlen, List.getD_eq_getElem _ _ h1,
    List.getD_eq_getElem _ _ h0]
  simp only [diffsOf, List.getElem_zipWith, List.getElem_tail]

theorem gainOf_eq_max (d : ℚ) : gainOf d = max d 0 := by
  rw [gainOf]
  split_ifs with h
  · exact (max_eq_left h.le).symm
  · exact (max_eq_right (not_lt.mp h)).symm

theorem lossOf_eq_max (d : ℚ) : lossOf d = max (-d) 0 := by
  rw [lossOf]
  split_ifs with h
  · exact (max_eq_right (by linarith)).symm
  · exact (max_eq_left (by push_neg at h; linarith)).symm

theorem mapped_gain_getD {closes : List ℚ} {i : ℕ} (h : i < closes.length - 1) :
    ((diffsOf closes).map gainOf).getD i 0 = specGain closes i := by
  have hlen : i < (diffsOf closes).length := by rw [diffsOf_length]; omega
  rw [List.getD_eq_getElem _ _ (by simpa using hlen), List.getElem_map,
    specGain, ← diffsOf_getD h, List.getD_eq_getElem _ _ hlen, gainOf_eq_max]

theorem mapped_loss_getD {closes : List ℚ} {i : ℕ} (h : i < closes.length - 1) :
    ((diffsOf closes).map lossOf).getD i 0 = specLoss closes i := by
  have hlen : i < (diffsOf closes).length := by rw [diffsOf_length]; omega
  rw [List.getD_eq_getElem _ _ (by simpa using hlen), List.getElem_map,
    specLoss, ← diffsOf_getD h, List.getD_eq_getElem _ _ hlen, lossOf_eq_max]

theorem take_foldl_specSum (L : List ℚ) :
    ∀ k, k ≤ L.length → (L.take k).foldl decAdd 0 = specSum (fun i => L.getD i 0) k := by
  intro k
  induction k with
  | zero => intro _; simp [specSum]
  | succ k ih =>
    intro h
    rw [List.take_succ, List.getElem?_eq_getElem (by omega : k < L.length)]
    rw [List.foldl_append, ih (by omega)]
    simp only [Option.toList_some, List.foldl_cons, List.foldl_nil, specSum]
    congr 1
    rw [List.getD_eq_getElem _ _ (by omega : k < L.length)]

theorem drop_foldl_specSmooth (p : ℕ) (L : List ℚ) :
    ∀ (fuel m : ℕ) (a : ℚ), L.length - m = fuel →
      (L.drop m).foldl (smoothStep p) a
        = specSmoothFrom p (fun i => L.getD i 0) m fuel a := by
  intro fuel
  induction fuel with
  | zero =>
    intro m a h
    rw [List.drop_eq_nil_of_le (by omega), List.foldl_nil]
    rfl
  | succ fuel ih =>
    intro m a h
    have hm : m < L.length := by omega
    rw [List.drop_eq_getElem_cons hm, List.foldl_cons, ih (m + 1) _ (by omega)]
    simp only [specSmoothFrom]
    congr 1
    rw [smoothStep, List.getD_eq_getElem _ _ hm]

theorem specSum_congr {f g : ℕ → ℚ} :
    ∀ k, (∀ i, i < k → f i = g i) → specSum f k = specSum g k := by
  intro k
  induction k with
  | zero => intro _; rfl
  | succ k ih =>
    intro h
    simp only [specSum]
    rw [ih fun i hi => h i (by omega), h k (by omega)]

theorem specSmoothFrom_congr (p : ℕ) {f g : ℕ → ℚ} :
    ∀ (fuel m : ℕ) (a : ℚ), (∀ i, m ≤ i → i < m + fuel → f i = g i) →
      specSmoothFrom p f m fuel a = specSmoothFrom p g m fuel a := by
  intro fuel
  induction fuel with
  | zero => intro m a _; rfl
  | succ fuel ih =>
    intro m a h
    simp only [specSmoothFrom]
    rw [h m (by omega) (by omega)]
    exact ih (m + 1) _ fun i h1 h2 => h i (by omega) (by omega)

theorem smoothAvg_eq_spec_gain (closes : List ℚ) (p : ℕ)
    (hlen : p + 1 ≤ closes.length) :
    smoothAvg p ((diffsOf closes).map gainOf)
      = specSmoothFrom p (specGain closes) p (closes.length - 1 - p)
          (divD (specSum (specGain closes) p) p) := by
  have hG : ((diffsOf closes).map gainOf).length = closes.length - 1 := by
    rw [List.length_map, diffsOf_length]
  rw [smoothAvg, seedAvg,
    take_foldl_specSum _ p (by omega),
    drop_foldl_specSmooth p _ (closes.length - 1 - p) p _ (by omega)]
  rw [specSum_congr p fun i hi => mapped_gain_getD (by omega)]
  exact specSmoothFrom_congr p _ _ _ fun i h1 h2 => mapped_gain_getD (by omega)

theorem smoothAvg_eq_spec_loss (closes : List ℚ) (p : ℕ)
    (hlen : p + 1 ≤ closes.length) :
    smoothAvg p ((diffsOf closes).map lossOf)
      = specSmoothFrom p (specLoss closes) p (closes.length - 1 - p)
          (divD (specSum (specLoss closes) p) p) := by
  have hG : ((diffsOf closes).map lossOf).length = closes.length - 1 := by
    rw [List.length_map, diffsOf_length]
  rw [smoothAvg, seedAvg,
    take_foldl_specSum _ p (by omega),
    drop_foldl_specSmooth p _ (closes.length - 1 - p) p _ (by omega)]
  rw [specSum_congr p fun i hi => mapped_loss_getD (by omega)]
  exact specSmoothFrom_congr p _ _ _ fun i h1 h2 => mapped_loss_getD (by omega)

theorem rsiCore_eq_wilderSpec (closes : List ℚ) (p : ℕ) (_hp : 1 ≤ p)
    (hlen : p + 1 ≤ closes.length) : rsiCore closes p = wilderSpec closes p := by
  rw [rsiCore, finalRsi, wilderSpec, smoothAvg_eq_spec_gain closes p hlen,
    smoothAvg_eq_spec_loss closes p hlen]

/-! ## Error behaviour -/

theorem compute_insufficient {closes : List ℚ} {p : ℕ} (h : closes.length < p + 1) :
    compute_rsi_from_closes closes p = .error .insufficientData := by
  rw [compute_rsi_from_closes, if_pos h]

theorem compute_period_zero {closes : List ℚ} (h : 1 ≤ closes.length) :
    compute_rsi_from_closes closes 0 = .error .divByZero := by
  rw [compute_rsi_from_closes, if_neg (by omega)]
  dsimp only
  rw [show decDiv ((((diffsOf closes).map gainOf).take 0).foldl decAdd 0) ((0 : ℕ) : ℚ)
      = .error .divByZero by rw [decDiv, if_pos (by norm_num)]]
  rfl

/-! ## Evaluation lemmas for concrete inputs

The kernel cannot reduce `ℚ` arithmetic (it relies on `Nat.gcd`), so
concrete values of `roundDec` are certified through the following
characterisations, whose side conditions `norm_num` can check. -/

theorem qexp_eq_of (q : ℚ) (E : ℤ) (hq : 0 < q) (h1 : (10 : ℚ) ^ E ≤ q)
    (h2 : q < (10 : ℚ) ^ (E + 1)) : qexp q = E := by
  obtain ⟨s1, s2⟩ := qexp_spec hq.ne'
  rw [abs_of_pos hq] at s1 s2
  have l1 := (zpow_lt_zpow_iff_right₀ (by norm_num : (1 : ℚ) < 10)).mp
    (lt_of_le_of_lt s1 h2)
  have l2 := (zpow_lt_zpow_iff_right₀ (by norm_num : (1 : ℚ) < 10)).mp
    (lt_of_le_of_lt h1 s2)
  omega

theorem rhe_eq_of_lt (x : ℚ) (n : ℤ) (h1 : (n : ℚ) - 1 / 2 < x)
    (h2 : x < (n : ℚ) + 1 / 2) : rhe x = n := by
  have hfl : ⌊x⌋ = n ∨ ⌊x⌋ = n - 1 := by
    have ha : (⌊x⌋ : ℚ) ≤ x := Int.floor_le x
    have hb : x < (⌊x⌋ : ℚ) + 1 := Int.lt_floor_add_one x
    have hc : (n : ℚ) - 1 < x := by linarith
    have hd : x < (n : ℚ) + 1 := by linarith
    have h5 : n - 1 ≤ ⌊x⌋ := Int.le_floor.mpr (by push_cast; linarith)
    have h6 : ⌊x⌋ < n + 1 := Int.floor_lt.mpr (by push_cast; linarith)
    omega
  rcases hfl with hfl | hfl
  · rw [rhe, if_pos]
    · exact hfl
    · rw [hfl]
      linarith
  · rw [rhe, if_neg, if_pos]
    · omega
    · rw [hfl]
      push_cast
      linarith
    · rw [hfl]
      push_cast
      linarith

theorem roundDec_eval_pos (q r : ℚ) (m E : ℤ) (hq : 0 < q)
    (hElo : (10 : ℚ) ^ E ≤ q) (hEhi : q < (10 : ℚ) ^ (E + 1))
    (hmlo : ((m : ℚ) - 1 / 2) * (10 : ℚ) ^ (E - 11) < q)
    (hmhi : q < ((m : ℚ) + 1 / 2) * (10 : ℚ) ^ (E - 11))
    (hr : (m : ℚ) * (10 : ℚ) ^ (E - 11) = r) : roundDec q = r := by
  rw [roundDec, if_neg hq.ne', if_pos hq, roundPos, qexp_eq_of q E hq hElo hEhi]
  have hpow : (0 : ℚ) < (10 : ℚ) ^ (E - 11) := zpow_pos (by norm_num) _
  have hinv : (10 : ℚ) ^ (11 - E) * (10 : ℚ) ^ (E - 11) = 1 := by
    rw [← zpow_add₀ ten_ne_zero']
    norm_num
  have hrhe : rhe (q * (10 : ℚ) ^ (11 - E)) = m := by
    apply rhe_eq_of_lt
    · have := mul_lt_mul_of_pos_right hmlo (zpow_pos (by norm_num : (0:ℚ) < 10) (11 - E))
      calc ((m : ℚ) - 1 / 2)
          = ((m : ℚ) - 1 / 2) * ((10 : ℚ) ^ (E - 11) * (10 : ℚ) ^ (11 - E)) := by
            rw [show (10 : ℚ) ^ (E - 11) * (10 : ℚ) ^ (11 - E) = 1 by
              rw [← zpow_add₀ ten_ne_zero']; norm_num]
            ring
        _ = ((m : ℚ) - 1 / 2) * (10 : ℚ) ^ (E - 11) * (10 : ℚ) ^ (11 - E) := by ring
        _ < q * (10 : ℚ) ^ (11 - E) := this
    · have := mul_lt_mul_of_pos_right hmhi (zpow_pos (by norm_num : (0:ℚ) < 10) (11 - E))
      calc q * (10 : ℚ) ^ (11 - E)
          < ((m : ℚ) + 1 / 2) * (10 : ℚ) ^ (E - 11) * (10 : ℚ) ^ (11 - E) := this
        _ = ((m : ℚ) + 1 / 2) * ((10 : ℚ) ^ (E - 11) * (10 : ℚ) ^ (11 - E)) := by ring
        _ = (m : ℚ) + 1 / 2 := by
            rw [show (10 : ℚ) ^ (E - 11) * (10 : ℚ) ^ (11 - E) = 1 by
              rw [← zpow_add₀ ten_ne_zero']; norm_num]
            ring
  rw [hrhe, hr]

theorem roundDec_eval_neg (q r : ℚ) (m E : ℤ) (hq : q < 0)
    (hElo : (10 : ℚ) ^ E ≤ -q) (hEhi : -q < (10 : ℚ) ^ (E + 1))
    (hmlo : ((m : ℚ) - 1 / 2) * (10 : ℚ) ^ (E - 11) < -q)
    (hmhi : -q < ((m : ℚ) + 1 / 2) * (10 : ℚ) ^ (E - 11))
    (hr : -((m : ℚ) * (10 : ℚ) ^ (E - 11)) = r) : roundDec q = r := by
  have hpos : 0 < -q := neg_pos.mpr hq
  have h := roundDec_eval_pos (-q) (-r) m E hpos hElo hEhi hmlo hmhi (by linarith)
  calc roundDec q = -roundDec (-q) := by
        rw [roundDec, if_neg hq.ne, if_neg (not_lt.mpr hq.le),
          roundDec, if_neg hpos.ne', if_pos hpos]
    _ = r := by rw [h]; ring

theorem roundDec_eval_pos' (q r : ℚ) (m E : ℤ)
    (h : 0 < q ∧ (10 : ℚ) ^ E ≤ q ∧ q < (10 : ℚ) ^ (E + 1) ∧
      ((m : ℚ) - 1 / 2) * (10 : ℚ) ^ (E - 11) < q ∧
      q < ((m : ℚ) + 1 / 2) * (10 : ℚ) ^ (E - 11) ∧
      (m : ℚ) * (10 : ℚ) ^ (E - 11) = r) : roundDec q = r :=
  roundDec_eval_pos q r m E h.1 h.2.1 h.2.2.1 h.2.2.2.1 h.2.2.2.2.1 h.2.2.2.2.2

theorem roundDec_eval_neg' (q r : ℚ) (m E : ℤ)
    (h : q < 0 ∧ (10 : ℚ) ^ E ≤ -q ∧ -q < (10 : ℚ) ^ (E + 1) ∧
      ((m : ℚ) - 1 / 2) * (10 : ℚ) ^ (E - 11) < -q ∧
      -q < ((m : ℚ) + 1 / 2) * (10 : ℚ) ^ (E - 11) ∧
      -((m : ℚ) * (10 : ℚ) ^ (E - 11)) = r) : roundDec q = r :=
  roundDec_eval_neg q r m E h.1 h.2.1 h.2.2.1 h.2.2.2.1 h.2.2.2.2.1 h.2.2.2.2.2

/-! ## Zero propagation (all-gain / all-loss inputs) -/

theorem foldl_decAdd_zero {l : List ℚ} (hl : ∀ x ∈ l, x = 0) :
    l.foldl decAdd 0 = 0 := by
  induction l with
  | nil => rfl
  | cons x t ih =>
    rw [List.foldl_cons, hl x (List.mem_cons_self x t),
      show decAdd 0 0 = 0 by rw [decAdd, add_zero, roundDec_zero]]
    exact ih fun y hy => hl y (List.mem_cons_of_mem x hy)

theorem seedAvg_zero {p : ℕ} {l : List ℚ} (hl : ∀ x ∈ l, x = 0) :
    seedAvg p l = 0 := by
  rw [seedAvg, foldl_decAdd_zero fun x hx => hl x (List.take_subset p l hx),
    divD, zero_div, roundDec_zero]

theorem smoothStep_zero {p : ℕ} {x : ℚ} (hx : x = 0) : smoothStep p 0 x = 0 := by
  rw [smoothStep, hx, decMul, zero_mul, roundDec_zero, decAdd, add_zero,
    roundDec_zero, divD, zero_div, roundDec_zero]

theorem smoothAvg_zero {p : ℕ} {l : List ℚ} (hl : ∀ x ∈ l, x = 0) :
    smoothAvg p l = 0 := by
  rw [smoothAvg, seedAvg_zero hl]
  have : ∀ t : List ℚ, (∀ x ∈ t, x = 0) → t.foldl (smoothStep p) 0 = 0 := by
    intro t
    induction t with
    | nil => intro _; rfl
    | cons x s ih =>
      intro h
      rw [List.foldl_cons, smoothStep_zero (h x (List.mem_cons_self x s))]
      exact ih fun y hy => h y (List.mem_cons_of_mem x hy)
  exact this _ fun x hx => hl x (List.drop_subset p l hx)

/-! ## Positivity (strict loss propagates for `period ≥ 2`) -/

theorem foldl_decAdd_pos {l : List ℚ} {a : ℚ} (hl : ∀ x ∈ l, 0 ≤ x) :
    ∀ (_ : 0 < a), 0 < l.foldl decAdd a := by
  induction l generalizing a with
  | nil => intro ha; exact ha
  | cons x t ih =>
    intro ha
    rw [List.foldl_cons]
    exact ih (fun y hy => hl y (List.mem_cons_of_mem x hy))
      (roundDec_pos (by have := hl x (List.mem_cons_self x t); linarith))

theorem foldl_decAdd_pos_of_mem {l : List ℚ} (hl : ∀ x ∈ l, 0 ≤ x)
    (hex : ∃ x ∈ l, 0 < x) : 0 < l.foldl decAdd 0 := by
  induction l with
  | nil => obtain ⟨x, hx, _⟩ := hex; exact absurd hx (List.not_mem_nil x)
  | cons x t ih =>
    rw [List.foldl_cons]
    rcases hex with ⟨y, hy, hypos⟩
    rcases List.mem_cons.mp hy with rfl | hyt
    · exact foldl_decAdd_pos (fun z hz => hl z (List.mem_cons_of_mem y hz))
        (roundDec_pos (by linarith))
    · have h0 : 0 ≤ decAdd 0 x :=
        roundDec_nonneg (by have := hl x (List.mem_cons_self x t); linarith)
      rcases eq_or_lt_of_le h0 with heq | hpos
      · rw [← heq]
        exact ih (fun z hz => hl z (List.mem_cons_of_mem x hz)) ⟨y, hyt, hypos⟩
      · exact foldl_decAdd_pos (fun z hz => hl z (List.mem_cons_of_mem x hz)) hpos

theorem smoothStep_pos {p : ℕ} (hp : 2 ≤ p) {avg x : ℚ} (havg : 0 < avg)
    (hx : 0 ≤ x) : 0 < smoothStep p avg x := by
  have h1 : (0 : ℚ) < (p : ℚ) - 1 := by
    have : (2 : ℚ) ≤ (p : ℚ) := by exact_mod_cast hp
    linarith
  have h2 : 0 < decMul avg ((p : ℚ) - 1) := roundDec_pos (by positivity)
  have h3 : 0 < decAdd (decMul avg ((p : ℚ) - 1)) x := roundDec_pos (by linarith)
  have hpq : (0 : ℚ) < (p : ℚ) := by positivity
  exact roundDec_pos (by positivity)

theorem smoothStep_pos_of_x {p : ℕ} (hp : 1 ≤ p) {avg x : ℚ} (havg : 0 ≤ avg)
    (hx : 0 < x) : 0 < smoothStep p avg x := by
  have h1 : (0 : ℚ) ≤ (p : ℚ) - 1 := by
    have : (1 : ℚ) ≤ (p : ℚ) := by exact_mod_cast hp
    linarith
  have h2 : 0 ≤ decMul avg ((p : ℚ) - 1) := roundDec_nonneg (by positivity)
  have h3 : 0 < decAdd (decMul avg ((p : ℚ) - 1)) x := roundDec_pos (by linarith)
  have hpq : (0 : ℚ) < (p : ℚ) := by
    have : (1 : ℚ) ≤ (p : ℚ) := by exact_mod_cast hp
    linarith
  exact roundDec_pos (by positivity)

theorem foldl_smoothStep_pos {p : ℕ} (hp : 2 ≤ p) {l : List ℚ} {a : ℚ}
    (ha : 0 < a) (hl : ∀ x ∈ l, 0 ≤ x) : 0 < l.foldl (smoothStep p) a := by
  induction l generalizing a with
  | nil => exact ha
  | cons x t ih =>
    rw [List.foldl_cons]
    exact ih (smoothStep_pos hp ha (hl x (List.mem_cons_self x t)))
      fun y hy => hl y (List.mem_cons_of_mem x hy)

theorem smoothAvg_pos {p : ℕ} (hp : 2 ≤ p) {l : List ℚ}
    (hl : ∀ x ∈ l, 0 ≤ x) (hex : ∃ x ∈ l, 0 < x) : 0 < smoothAvg p l := by
  rw [smoothAvg]
  have hpq : (0 : ℚ) < (p : ℚ) := by positivity
  obtain ⟨y, hy, hypos⟩ := hex
  rcases List.mem_append.mp
    (show y ∈ l.take p ++ l.drop p by rw [List.take_append_drop]; exact hy)
    with htk | hdr
  · -- the strictly positive entry is in the seed window
    have hseed : 0 < seedAvg p l := by
      rw [seedAvg]
      apply roundDec_pos
      apply div_pos _ hpq
      exact foldl_decAdd_pos_of_mem
        (fun x hx => hl x (List.take_subset p l hx)) ⟨y, htk, hypos⟩
    exact foldl_smoothStep_pos hp hseed fun x hx => hl x (List.drop_subset p l hx)
  · -- the strictly positive entry is consumed by the smoothing loop
    have hseed : 0 ≤ seedAvg p l := seedAvg_nonneg hl
    have key : ∀ (t : List ℚ) (a : ℚ), 0 ≤ a → (∀ x ∈ t, 0 ≤ x) →
        (∃ x ∈ t, 0 < x) → 0 < t.foldl (smoothStep p) a := by
      intro t
      induction t with
      | nil =>
        intro a _ _ hex2
        obtain ⟨x, hx, _⟩ := hex2
        exact absurd hx (List.not_mem_nil x)
      | cons x s ih =>
        intro a ha hall hex2
        rw [List.foldl_cons]
        rcases hex2 with ⟨y, hy, hypos⟩
        rcases List.mem_cons.mp hy with rfl | hys
        · exact foldl_smoothStep_pos hp
            (smoothStep_pos_of_x (by omega) ha hypos)
            fun z hz => hall z (List.mem_cons_of_mem y hz)
        · exact ih _
            (smoothStep_nonneg (by omega) ha (hall x (List.mem_cons_self x s)))
            (fun z hz => hall z (List.mem_cons_of_mem x hz)) ⟨y, hys, hypos⟩
    exact key _ _ hseed (fun x hx => hl x (List.drop_subset p l hx)) ⟨y, hdr, hypos⟩

/-! ## Differences and monotone inputs -/

theorem lossOf_eq_zero {d : ℚ} (h : 0 ≤ d) : lossOf d = 0 := by
  rw [lossOf]
  split_ifs with h1
  · rfl
  · rw [show d = 0 from le_antisymm (not_lt.mp h1) h, neg_zero]

theorem gainOf_eq_zero {d : ℚ} (h : d ≤ 0) : gainOf d = 0 := by
  rw [gainOf]
  split_ifs with h1
  · exact absurd (lt_of_lt_of_le h1 h) (lt_irrefl 0)
  · rfl

theorem diffsOf_nonneg_of_chain {closes : List ℚ}
    (h : List.Chain' (fun a b => a ≤ b) closes) : ∀ d ∈ diffsOf closes, 0 ≤ d := by
  intro d hd
  obtain ⟨i, hi, rfl⟩ := List.mem_iff_getElem.mp hd
  have hi' : i < closes.length - 1 := by
    rw [diffsOf_length] at hi
    omega
  have hstep : closes.getD i 0 ≤ closes.getD (i + 1) 0 := by
    rw [List.getD_eq_getElem _ _ (by omega : i < closes.length),
      List.getD_eq_getElem _ _ (by omega : i + 1 < closes.length)]
    have := List.chain'_iff_get.mp h i (by omega)
    simpa [List.get_eq_getElem] using this
  rw [← List.getD_eq_getElem _ 0 hi, diffsOf_getD hi']
  exact roundDec_nonneg (by rw [sub_nonneg]; exact hstep)

theorem diffsOf_nonpos_of_chain {closes : List ℚ}
    (h : List.Chain' (fun a b => b ≤ a) closes) : ∀ d ∈ diffsOf closes, d ≤ 0 := by
  intro d hd
  obtain ⟨i, hi, rfl⟩ := List.mem_iff_getElem.mp hd
  have hi' : i < closes.length - 1 := by
    rw [diffsOf_length] at hi
    omega
  have hstep : closes.getD (i + 1) 0 ≤ closes.getD i 0 := by
    rw [List.getD_eq_getElem _ _ (by omega : i < closes.length),
      List.getD_eq_getElem _ _ (by omega : i + 1 < closes.length)]
    have := List.chain'_iff_get.mp h i (by omega)
    simpa [List.get_eq_getElem] using this
  rw [← List.getD_eq_getElem _ 0 hi, diffsOf_getD hi']
  have hle : closes.getD (i + 1) 0 - closes.getD i 0 ≤ 0 := by linarith
  rcases eq_or_lt_of_le hle with heq | hlt
  · rw [decSub, heq, roundDec_zero]
  · exact (roundDec_neg' hlt).le

theorem exists_neg_diff {closes : List ℚ}
    (h2 : ¬ List.Chain' (fun a b => a ≤ b) closes) :
    ∃ d ∈ diffsOf closes, d < 0 := by
  by_contra hcon
  push_neg at hcon
  apply h2
  rw [List.chain'_iff_get]
  intro i hi
  have hi' : i < (diffsOf closes).length := by rw [diffsOf_length]; omega
  have hge := hcon _ (List.getElem_mem hi')
  rw [← List.getD_eq_getElem _ 0 hi',
    diffsOf_getD (by rw [diffsOf_length] at hi'; omega)] at hge
  by_contra hlt
  push_neg at hlt
  rw [List.get_eq_getElem, List.get_eq_getElem] at hlt
  have hneg : closes.getD (i + 1) 0 - closes.getD i 0 < 0 := by
    rw [List.getD_eq_getElem _ _ (by omega : i + 1 < closes.length),
      List.getD_eq_getElem _ _ (by omega : i < closes.length)]
    have h1 : closes.length - 1 - 1 + 1 = closes.length - 1 := by
      rw [diffsOf_length] at hi'
      omega
    simp only [h1] at hlt
    linarith [hlt]
  rw [decSub] at hge
  exact absurd hge (not_le.mpr (roundDec_neg' hneg))

/-! ## Core results: range, all-gain and all-loss inputs -/

theorem rsiCore_range (closes : List ℚ) (p : ℕ) (hp : 1 ≤ p) :
    0 ≤ rsiCore closes p ∧ rsiCore closes p ≤ 100 := by
  have hAG : 0 ≤ smoothAvg p ((diffsOf closes).map gainOf) :=
    smoothAvg_nonneg hp (mapped_gains_nonneg closes)
  have hAL : 0 ≤ smoothAvg p ((diffsOf closes).map lossOf) :=
    smoothAvg_nonneg hp (mapped_losses_nonneg closes)
  rw [rsiCore, finalRsi]
  split_ifs with h0
  · norm_num
  · have hALpos : 0 < smoothAvg p ((diffsOf closes).map lossOf) :=
      lt_of_le_of_ne hAL (Ne.symm h0)
    set AG := smoothAvg p ((diffsOf closes).map gainOf)
    set AL := smoothAvg p ((diffsOf closes).map lossOf)
    have hrs : 0 ≤ divD AG AL := roundDec_nonneg (div_nonneg hAG hALpos.le)
    have ht : 1 ≤ decAdd 1 (divD AG AL) := one_le_roundDec (by linarith)
    have hq1 : 0 ≤ divD 100 (decAdd 1 (divD AG AL)) :=
      roundDec_nonneg (div_nonneg (by norm_num) (by linarith))
    have hq2 : divD 100 (decAdd 1 (divD AG AL)) ≤ 100 := by
      apply roundDec_le_hundred
      rw [div_le_iff₀ (by linarith)]
      nlinarith
    constructor
    · exact roundDec_nonneg (by linarith)
    · exact roundDec_le_hundred (by linarith)

theorem rsiCore_nondecreasing (closes : List ℚ) (p : ℕ)
    (h : List.Chain' (fun a b => a ≤ b) closes) : rsiCore closes p = 100 := by
  have hzero : smoothAvg p ((diffsOf closes).map lossOf) = 0 := by
    apply smoothAvg_zero
    intro x hx
    obtain ⟨d, hd, rfl⟩ := List.mem_map.mp hx
    exact lossOf_eq_zero (diffsOf_nonneg_of_chain h d hd)
  rw [rsiCore, hzero, finalRsi, if_pos rfl]

theorem rsiCore_nonincreasing (closes : List ℚ) (p : ℕ) (hp : 2 ≤ p)
    (h1 : List.Chain' (fun a b => b ≤ a) closes)
    (h2 : ¬ List.Chain' (fun a b => a ≤ b) closes) : rsiCore closes p = 0 := by
  have hgz : smoothAvg p ((diffsOf closes).map gainOf) = 0 := by
    apply smoothAvg_zero
    intro x hx
    obtain ⟨d, hd, rfl⟩ := List.mem_map.mp hx
    exact gainOf_eq_zero (diffsOf_nonpos_of_chain h1 d hd)
  have hlp : 0 < smoothAvg p ((diffsOf closes).map lossOf) := by
    apply smoothAvg_pos hp (mapped_losses_nonneg closes)
    obtain ⟨d, hd, hdneg⟩ := exists_neg_diff h2
    refine ⟨lossOf d, List.mem_map.mpr ⟨d, hd, rfl⟩, ?_⟩
    rw [lossOf, if_neg (by linarith)]
    linarith
  rw [rsiCore, hgz, finalRsi, if_neg hlp.ne']
  rw [show divD 0 (smoothAvg p ((diffsOf closes).map lossOf)) = 0 by
    rw [divD, zero_div, roundDec_zero]]
  rw [show decAdd 1 0 = 1 by rw [decAdd, add_zero, roundDec_one]]
  rw [show divD 100 1 = 100 by rw [divD, div_one, roundDec_hundred]]
  rw [decSub, sub_self, roundDec_zero]

/-! ## `get_rsi_from_alpaca`: truncation and seed-only computation -/

/-- RSI computed from the seed averages alone, with no Wilder smoothing
iteration: the value `get_rsi_from_alpaca` actually produces. -/
def seedOnlyRsi (closes : List ℚ) (p : ℕ) : ℚ :=
  finalRsi (seedAvg p ((diffsOf closes).map gainOf))
    (seedAvg p ((diffsOf closes).map lossOf))

theorem rsiCore_eq_seedOnly {closes : List ℚ} {p : ℕ}
    (hlen : closes.length = p + 1) : rsiCore closes p = seedOnlyRsi closes p := by
  have hg : (((diffsOf closes).map gainOf).drop p) = [] := by
    apply List.drop_eq_nil_of_le
    rw [List.length_map, diffsOf_length]
    omega
  have hl : (((diffsOf closes).map lossOf).drop p) = [] := by
    apply List.drop_eq_nil_of_le
    rw [List.length_map, diffsOf_length]
    omega
  rw [rsiCore, seedOnlyRsi, smoothAvg, smoothAvg, hg, hl, List.foldl_nil,
    List.foldl_nil]

theorem get_rsi_truncates {closes : List ℚ} {p : ℕ} (hlen : p + 1 ≤ closes.length) :
    get_rsi_from_alpaca closes p
      = compute_rsi_from_closes (closes.drop (closes.length - (p + 1))) p := by
  rw [get_rsi_from_alpaca, if_neg (by omega)]

theorem get_rsi_seed_only {closes : List ℚ} {p : ℕ} (hp : 1 ≤ p)
    (hlen : p + 1 ≤ closes.length) :
    get_rsi_from_alpaca closes p
      = .ok (seedOnlyRsi (closes.drop (closes.length - (p + 1))) p) := by
  have hdlen : (closes.drop (closes.length - (p + 1))).length = p + 1 := by
    rw [List.length_drop]
    omega
  rw [get_rsi_truncates hlen,
    compute_rsi_eq_ok _ p hp (by rw [hdlen]),
    rsiCore_eq_seedOnly hdlen]

/-! ## Exact-arithmetic Wilder RSI

The same algorithm with exact rational arithmetic (no 12-digit
rounding), used to state the monotonic-sensitivity property in the form
in which it actually holds. -/

/-- Successive differences, exact. -/
def diffsE (closes : List ℚ) : List ℚ :=
  List.zipWith (fun cur prev => cur - prev) closes.tail closes

/-- One Wilder smoothing update, exact. -/
def smoothStepE (p : ℕ) (avg x : ℚ) : ℚ := (avg * ((p : ℚ) - 1) + x) / p

/-- Seed average then Wilder smoothing, exact. -/
def smoothAvgE (p : ℕ) (l : List ℚ) : ℚ :=
  (l.drop p).foldl (smoothStepE p) ((l.take p).foldl (fun a b => a + b) 0 / p)

/-- Wilder RSI with exact rational arithmetic. -/
def rsiExact (closes : List ℚ) (p : ℕ) : ℚ :=
  if smoothAvgE p ((diffsE closes).map lossOf) = 0 then 100
  else 100 - 100 / (1 +
    smoothAvgE p ((diffsE closes).map gainOf)
      / smoothAvgE p ((diffsE closes).map lossOf))

theorem diffsE_length (closes : List ℚ) :
    (diffsE closes).length = closes.length - 1 := by
  simp [diffsE]
theorem foldl_add_nonneg {l : List ℚ} {a : ℚ} (ha : 0 ≤ a)
    (hl : ∀ x ∈ l, 0 ≤ x) : 0 ≤ l.foldl (fun a b => a + b) a := by
  induction l generalizing a with
  | nil => exact ha
  | cons x t ih =>
    rw [List.foldl_cons]
    exact ih (add_nonneg ha (hl x (List.mem_cons_self x t))) fun y hy =>
      hl y (List.mem_cons_of_mem x hy)

theorem smoothStepE_nonneg {p : ℕ} (hp : 1 ≤ p) {avg x : ℚ} (h1 : 0 ≤ avg)
    (h2 : 0 ≤ x) : 0 ≤ smoothStepE p avg x := by
  have hc : (0 : ℚ) ≤ (p : ℚ) - 1 := by
    have : (1 : ℚ) ≤ (p : ℚ) := by exact_mod_cast hp
    linarith
  exact div_nonneg (add_nonneg (mul_nonneg h1 hc) h2) (by positivity)

theorem smoothAvgE_nonneg {p : ℕ} (hp : 1 ≤ p) {l : List ℚ}
    (hl : ∀ x ∈ l, 0 ≤ x) : 0 ≤ smoothAvgE p l := by
  rw [smoothAvgE]
  have hseed : 0 ≤ (l.take p).foldl (fun a b => a + b) 0 / (p : ℚ) :=
    div_nonneg (foldl_add_nonneg le_rfl fun x hx => hl x (List.take_subset p l hx))
      (by positivity)
  have key : ∀ (t : List ℚ) (a : ℚ), 0 ≤ a → (∀ x ∈ t, 0 ≤ x) →
      0 ≤ t.foldl (smoothStepE p) a := by
    intro t
    induction t with
    | nil => intro a ha _; exact ha
    | cons x s ih =>
      intro a ha hall
      rw [List.foldl_cons]
      exact ih _ (smoothStepE_nonneg hp ha (hall x (List.mem_cons_self x s)))
        fun y hy => hall y (List.mem_cons_of_mem x hy)
  exact key _ _ hseed fun x hx => hl x (List.drop_subset p l hx)

theorem diffsE_append : ∀ (l : List ℚ) (hne : l ≠ []) (c : ℚ),
    diffsE (l ++ [c]) = diffsE l ++ [c - l.getLast hne] := by
  intro l
  induction l with
  | nil => intro hne; exact absurd rfl hne
  | cons a t ih =>
    intro _ c
    cases t with
    | nil => simp [diffsE]
    | cons b s =>
      have hbs : (b :: s : List ℚ) ≠ [] := by simp
      have key := ih hbs c
      simp only [List.cons_append] at key ⊢
      rw [show diffsE (a :: b :: (s ++ [c])) = (b - a) :: diffsE (b :: (s ++ [c]))
          from rfl, key,
        show diffsE (a :: b :: s) = (b - a) :: diffsE (b :: s) from rfl,
        List.getLast_cons hbs, List.cons_append]

theorem rsiExact_append_le (closes : List ℚ) (p : ℕ) (c : ℚ) (hp : 1 ≤ p)
    (hlen : p + 1 ≤ closes.length) (hne : closes ≠ [])
    (hc : closes.getLast hne < c) :
    rsiExact closes p ≤ rsiExact (closes ++ [c]) p := by
  have hgpos : 0 < c - closes.getLast hne := by linarith
  have hdiff := diffsE_append closes hne c
  have hGlen : ((diffsE closes).map gainOf).length = closes.length - 1 := by
    rw [List.length_map, diffsE_length]
  have hLlen : ((diffsE closes).map lossOf).length = closes.length - 1 := by
    rw [List.length_map, diffsE_length]
  have hAGnew : smoothAvgE p ((diffsE (closes ++ [c])).map gainOf)
      = smoothStepE p (smoothAvgE p ((diffsE closes).map gainOf))
          (c - closes.getLast hne) := by
    rw [hdiff, List.map_append, smoothAvgE, smoothAvgE,
      List.take_append_of_le_length (by rw [hGlen]; omega),
      List.drop_append_of_le_length (by rw [hGlen]; omega),
      List.foldl_append]
    simp only [List.map_cons, List.map_nil, List.foldl_cons, List.foldl_nil]
    rw [show gainOf (c - closes.getLast hne) = c - closes.getLast hne by
      rw [gainOf, if_pos hgpos]]
  have hALnew : smoothAvgE p ((diffsE (closes ++ [c])).map lossOf)
      = smoothStepE p (smoothAvgE p ((diffsE closes).map lossOf)) 0 := by
    rw [hdiff, List.map_append, smoothAvgE, smoothAvgE,
      List.take_append_of_le_length (by rw [hLlen]; omega),
      List.drop_append_of_le_length (by rw [hLlen]; omega),
      List.foldl_append]
    simp only [List.map_cons, List.map_nil, List.foldl_cons, List.foldl_nil]
    rw [lossOf_eq_zero hgpos.le]
  set g := c - closes.getLast hne with hgdef
  set AG := smoothAvgE p ((diffsE closes).map gainOf) with hAGdef
  set AL := smoothAvgE p ((diffsE closes).map lossOf) with hALdef
  have hAGn : 0 ≤ AG := by
    rw [hAGdef]
    apply smoothAvgE_nonneg hp
    intro x hx
    obtain ⟨d, _, rfl⟩ := List.mem_map.mp hx
    exact gainOf_nonneg d
  have hALn : 0 ≤ AL := by
    rw [hALdef]
    apply smoothAvgE_nonneg hp
    intro x hx
    obtain ⟨d, _, rfl⟩ := List.mem_map.mp hx
    exact lossOf_nonneg d
  have hpq : (1 : ℚ) ≤ (p : ℚ) := by exact_mod_cast hp
  have hppos : (0 : ℚ) < (p : ℚ) := by linarith
  rw [rsiExact, rsiExact, hAGnew, hALnew]
  rcases eq_or_ne AL 0 with h0 | h0
  · rw [if_pos h0, h0, smoothStepE, zero_mul, zero_add, zero_div, if_pos rfl]
  · have hALpos : 0 < AL := lt_of_le_of_ne hALn (Ne.symm h0)
    rw [if_neg h0]
    have hrs_nonneg : 0 ≤ AG / AL := div_nonneg hAGn hALpos.le
    have hold_le : 100 - 100 / (1 + AG / AL) ≤ 100 := by
      have h2 : (0 : ℚ) < 1 + AG / AL := by linarith
      have := div_nonneg (by norm_num : (0 : ℚ) ≤ 100) h2.le
      linarith
    rcases eq_or_lt_of_le hp with hp1 | hp2
    · have hz : ((p : ℚ) - 1) = 0 := by
        rw [show (p : ℚ) = 1 by exact_mod_cast hp1.symm]
        norm_num
      rw [smoothStepE, hz, mul_zero, zero_add, zero_div, if_pos rfl]
      exact hold_le
    · have hc2 : (2 : ℚ) ≤ (p : ℚ) := by exact_mod_cast hp2
      have hpm1 : (0 : ℚ) < (p : ℚ) - 1 := by linarith
      have hALnew_pos : 0 < smoothStepE p AL 0 := by
        rw [smoothStepE, add_zero]
        positivity
      rw [if_neg hALnew_pos.ne']
      have hratio : AG / AL ≤ smoothStepE p AG g / smoothStepE p AL 0 := by
        rw [smoothStepE, smoothStepE, add_zero]
        have e : (AG * ((p : ℚ) - 1) + g) / (p : ℚ) / (AL * ((p : ℚ) - 1) / (p : ℚ))
            = (AG * ((p : ℚ) - 1) + g) / (AL * ((p : ℚ) - 1)) := by
          field_simp
        rw [e, div_le_div_iff₀ hALpos (by positivity)]
        nlinarith [mul_nonneg hgpos.le hALpos.le]
      have h1 : (0 : ℚ) < 1 + AG / AL := by linarith
      have h2 : 1 + AG / AL ≤ 1 + smoothStepE p AG g / smoothStepE p AL 0 := by
        linarith
      have hdivs : 100 / (1 + smoothStepE p AG g / smoothStepE p AL 0)
          ≤ 100 / (1 + AG / AL) := by
        gcongr
      linarith

/-! ## Concrete evaluations (certified step by step through `roundDec_eval_pos'`/`roundDec_eval_neg'`) -/

theorem compute_c7_deg :
    compute_rsi_from_closes [(2 : ℚ), (1 : ℚ), (1 : ℚ)] 1 = .ok (100 : ℚ) := by
  have h1 : decSub (1 : ℚ) (2 : ℚ) = (-1 : ℚ) := by
    rw [decSub, show (1 : ℚ) - (2 : ℚ) = (-1 : ℚ) by norm_num]
    refine roundDec_eval_neg' (-1 : ℚ) (-1 : ℚ) 100000000000 (0 : ℤ) ?_
    norm_num
  have h2 : decSub (1 : ℚ) (1 : ℚ) = (0 : ℚ) := by
    rw [decSub, show (1 : ℚ) - (1 : ℚ) = (0 : ℚ) by norm_num]
    exact roundDec_zero
  have h3 : diffsOf [(2 : ℚ), (1 : ℚ), (1 : ℚ)] = [(-1 : ℚ), (0 : ℚ)] := by
    rw [show diffsOf [(2 : ℚ), (1 : ℚ), (1 : ℚ)] = [decSub (1 : ℚ) (2 : ℚ), decSub (1 : ℚ) (1 : ℚ)] from rfl, h1, h2]
  have h4 : gainOf (-1 : ℚ) = (0 : ℚ) := by rw [gainOf, if_neg (by norm_num)]
  have h5 : gainOf (0 : ℚ) = (0 : ℚ) := by rw [gainOf, if_neg (by norm_num)]
  have h6 : lossOf (-1 : ℚ) = (1 : ℚ) := by
    rw [lossOf, if_neg (by norm_num)]
    norm_num
  have h7 : lossOf (0 : ℚ) = (0 : ℚ) := by
    rw [lossOf, if_neg (by norm_num)]
    norm_num
  have h8 : List.map gainOf [(-1 : ℚ), (0 : ℚ)] = [(0 : ℚ), (0 : ℚ)] := by
    rw [show List.map gainOf [(-1 : ℚ), (0 : ℚ)] = [gainOf (-1 : ℚ), gainOf (0 : ℚ)] from rfl, h4, h5]
  have h9 : List.map lossOf [(-1 : ℚ), (0 : ℚ)] = [(1 : ℚ), (0 : ℚ)] := by
    rw [show List.map lossOf [(-1 : ℚ), (0 : ℚ)] = [lossOf (-1 : ℚ), lossOf (0 : ℚ)] from rfl, h6, h7]
  have h10 : List.take 1 [(0 : ℚ), (0 : ℚ)] = [(0 : ℚ)] := rfl
  have h11 : List.drop 1 [(0 : ℚ), (0 : ℚ)] = [(0 : ℚ)] := rfl
  have h12 : decAdd (0 : ℚ) (0 : ℚ) = (0 : ℚ) := by
    rw [decAdd, show (0 : ℚ) + (0 : ℚ) = (0 : ℚ) by norm_num]
    exact roundDec_zero
  have h13 : List.foldl decAdd 0 [(0 : ℚ)] = (0 : ℚ) := by
    simp only [List.foldl_cons, List.foldl_nil]
    rw [h12]
  have h14 : divD (0 : ℚ) ((1 : ℕ) : ℚ) = (0 : ℚ) := by
    rw [divD, show (0 : ℚ) / ((1 : ℕ) : ℚ) = (0 : ℚ) by norm_num]
    exact roundDec_zero
  have h15 : seedAvg 1 [(0 : ℚ), (0 : ℚ)] = (0 : ℚ) := by
    rw [seedAvg, h10, h13, h14]
  have h16 : decMul (0 : ℚ) (((1 : ℕ) : ℚ) - 1) = (0 : ℚ) := by
    rw [decMul, show (0 : ℚ) * (((1 : ℕ) : ℚ) - 1) = (0 : ℚ) by norm_num]
    exact roundDec_zero
  have h17 : decAdd (0 : ℚ) (0 : ℚ) = (0 : ℚ) := by
    rw [decAdd, show (0 : ℚ) + (0 : ℚ) = (0 : ℚ) by norm_num]
    exact roundDec_zero
  have h18 : divD (0 : ℚ) ((1 : ℕ) : ℚ) = (0 : ℚ) := by
    rw [divD, show (0 : ℚ) / ((1 : ℕ) : ℚ) = (0 : ℚ) by norm_num]
    exact roundDec_zero
  have h19 : smoothStep 1 (0 : ℚ) (0 : ℚ) = (0 : ℚ) := by
    rw [smoothStep, h16, h17, h18]
  have h20 : smoothAvg 1 [(0 : ℚ), (0 : ℚ)] = (0 : ℚ) := by
    rw [smoothAvg, h11]
    simp only [List.foldl_cons, List.foldl_nil]
    rw [h15, h19]
  have h21 : List.take 1 [(1 : ℚ), (0 : ℚ)] = [(1 : ℚ)] := rfl
  have h22 : List.drop 1 [(1 : ℚ), (0 : ℚ)] = [(0 : ℚ)] := rfl
  have h23 : decAdd (0 : ℚ) (1 : ℚ) = (1 : ℚ) := by
    rw [decAdd, show (0 : ℚ) + (1 : ℚ) = (1 : ℚ) by norm_num]
    refine roundDec_eval_pos' (1 : ℚ) (1 : ℚ) 100000000000 (0 : ℤ) ?_
    norm_num
  have h24 : List.foldl decAdd 0 [(1 : ℚ)] = (1 : ℚ) := by
    simp only [List.foldl_cons, List.foldl_nil]
    rw [h23]
  have h25 : divD (1 : ℚ) ((1 : ℕ) : ℚ) = (1 : ℚ) := by
    rw [divD, show (1 : ℚ) / ((1 : ℕ) : ℚ) = (1 : ℚ) by norm_num]
    refine roundDec_eval_pos' (1 : ℚ) (1 : ℚ) 100000000000 (0 : ℤ) ?_
    norm_num
  have h26 : seedAvg 1 [(1 : ℚ), (0 : ℚ)] = (1 : ℚ) := by
    rw [seedAvg, h21, h24, h25]
  have h27 : decMul (1 : ℚ) (((1 : ℕ) : ℚ) - 1) = (0 : ℚ) := by
    rw [decMul, show (1 : ℚ) * (((1 : ℕ) : ℚ) - 1) = (0 : ℚ) by norm_num]
    exact roundDec_zero
  have h28 : decAdd (0 : ℚ) (0 : ℚ) = (0 : ℚ) := by
    rw [decAdd, show (0 : ℚ) + (0 : ℚ) = (0 : ℚ) by norm_num]
    exact roundDec_zero
  have h29 : divD (0 : ℚ) ((1 : ℕ) : ℚ) = (0 : ℚ) := by
    rw [divD, show (0 : ℚ) / ((1 : ℕ) : ℚ) = (0 : ℚ) by norm_num]
    exact roundDec_zero
  have h30 : smoothStep 1 (1 : ℚ) (0 : ℚ) = (0 : ℚ) := by
    rw [smoothStep, h27, h28, h29]
  have h31 : smoothAvg 1 [(1 : ℚ), (0 : ℚ)] = (0 : ℚ) := by
    rw [smoothAvg, h22]
    simp only [List.foldl_cons, List.foldl_nil]
    rw [h26, h30]
  have h32 : finalRsi (0 : ℚ) (0 : ℚ) = (100 : ℚ) := by
    rw [finalRsi, if_pos rfl]
  rw [compute_rsi_eq_ok [(2 : ℚ), (1 : ℚ), (1 : ℚ)] 1 (by norm_num) (by simp), rsiCore,
    h3, h8, h9, h20, h31, h32]

theorem compute_textbook :
    compute_rsi_from_closes [(2217 / 50 : ℚ), (4409 / 100 : ℚ), (883 / 20 : ℚ), (4361 / 100 : ℚ), (4433 / 100 : ℚ), (4483 / 100 : ℚ), (451 / 10 : ℚ), (2271 / 50 : ℚ), (1146 / 25 : ℚ), (1152 / 25 : ℚ), (4589 / 100 : ℚ), (4603 / 100 : ℚ), (4561 / 100 : ℚ), (1157 / 25 : ℚ), (1157 / 25 : ℚ)] 14 = .ok (704641350211 / 10000000000 : ℚ) := by
  have h1 : decSub (4409 / 100 : ℚ) (2217 / 50 : ℚ) = (-(1 / 4) : ℚ) := by
    rw [decSub, show (4409 / 100 : ℚ) - (2217 / 50 : ℚ) = (-(1 / 4) : ℚ) by norm_num]
    refine roundDec_eval_neg' (-(1 / 4) : ℚ) (-(1 / 4) : ℚ) 250000000000 (-1 : ℤ) ?_
    norm_num
  have h2 : decSub (883 / 20 : ℚ) (4409 / 100 : ℚ) = (3 / 50 : ℚ) := by
    rw [decSub, show (883 / 20 : ℚ) - (4409 / 100 : ℚ) = (3 / 50 : ℚ) by norm_num]
    refine roundDec_eval_pos' (3 / 50 : ℚ) (3 / 50 : ℚ) 600000000000 (-2 : ℤ) ?_
    norm_num
  have h3 : decSub (4361 / 100 : ℚ) (883 / 20 : ℚ) = (-(27 / 50) : ℚ) := by
    rw [decSub, show (4361 / 100 : ℚ) - (883 / 20 : ℚ) = (-(27 / 50) : ℚ) by norm_num]
    refine roundDec_eval_neg' (-(27 / 50) : ℚ) (-(27 / 50) : ℚ) 540000000000 (-1 : ℤ) ?_
    norm_num
  have h4 : decSub (4433 / 100 : ℚ) (4361 / 100 : ℚ) = (18 / 25 : ℚ) := by
    rw [decSub, show (4433 / 100 : ℚ) - (4361 / 100 : ℚ) = (18 / 25 : ℚ) by norm_num]
    refine roundDec_eval_pos' (18 / 25 : ℚ) (18 / 25 : ℚ) 720000000000 (-1 : ℤ) ?_
    norm_num
  have h5 : decSub (4483 / 100 : ℚ) (4433 / 100 : ℚ) = (1 / 2 : ℚ) := by
    rw [decSub, show (4483 / 100 : ℚ) - (4433 / 100 : ℚ) = (1 / 2 : ℚ) by norm_num]
    refine roundDec_eval_pos' (1 / 2 : ℚ) (1 / 2 : ℚ) 500000000000 (-1 : ℤ) ?_
    norm_num
  have h6 : decSub (451 / 10 : ℚ) (4483 / 100 : ℚ) = (27 / 100 : ℚ) := by
    rw [decSub, show (451 / 10 : ℚ) - (4483 / 100 : ℚ) = (27 / 100 : ℚ) by norm_num]
    refine roundDec_eval_pos' (27 / 100 : ℚ) (27 / 100 : ℚ) 270000000000 (-1 : ℤ) ?_
    norm_num
  have h7 : decSub (2271 / 50 : ℚ) (451 / 10 : ℚ) = (8 / 25 : ℚ) := by
    rw [decSub, show (2271 / 50 : ℚ) - (451 / 10 : ℚ) = (8 / 25 : ℚ) by norm_num]
    refine roundDec_eval_pos' (8 / 25 : ℚ) (8 / 25 : ℚ) 320000000000 (-1 : ℤ) ?_
    norm_num
  have h8 : decSub (1146 / 25 : ℚ) (2271 / 50 : ℚ) = (21 / 50 : ℚ) := by
    rw [decSub, show (1146 / 25 : ℚ) - (2271 / 50 : ℚ) = (21 / 50 : ℚ) by norm_num]
    refine roundDec_eval_pos' (21 / 50 : ℚ) (21 / 50 : ℚ) 420000000000 (-1 : ℤ) ?_
    norm_num
  have h9 : decSub (1152 / 25 : ℚ) (1146 / 25 : ℚ) = (6 / 25 : ℚ) := by
    rw [decSub, show (1152 / 25 : ℚ) - (1146 / 25 : ℚ) = (6 / 25 : ℚ) by norm_num]
    refine roundDec_eval_pos' (6 / 25 : ℚ) (6 / 25 : ℚ) 240000000000 (-1 : ℤ) ?_
    norm_num
  have h10 : decSub (4589 / 100 : ℚ) (1152 / 25 : ℚ) = (-(19 / 100) : ℚ) := by
    rw [decSub, show (4589 / 100 : ℚ) - (1152 / 25 : ℚ) = (-(19 / 100) : ℚ) by norm_num]
    refine roundDec_eval_neg' (-(19 / 100) : ℚ) (-(19 / 100) : ℚ) 190000000000 (-1 : ℤ) ?_
    norm_num
  have h11 : decSub (4603 / 100 : ℚ) (4589 / 100 : ℚ) = (7 / 50 : ℚ) := by
    rw [decSub, show (4603 / 100 : ℚ) - (4589 / 100 : ℚ) = (7 / 50 : ℚ) by norm_num]
    refine roundDec_eval_pos' (7 / 50 : ℚ) (7 / 50 : ℚ) 140000000000 (-1 : ℤ) ?_
    norm_num
  have h12 : decSub (4561 / 100 : ℚ) (4603 / 100 : ℚ) = (-(21 / 50) : ℚ) := by
    rw [decSub, show (4561 / 100 : ℚ) - (4603 / 100 : ℚ) = (-(21 / 50) : ℚ) by norm_num]
    refine roundDec_eval_neg' (-(21 / 50) : ℚ) (-(21 / 50) : ℚ) 420000000000 (-1 : ℤ) ?_
    norm_num
  have h13 : decSub (1157 / 25 : ℚ) (4561 / 100 : ℚ) = (67 / 100 : ℚ) := by
    rw [decSub, show (1157 / 25 : ℚ) - (4561 / 100 : ℚ) = (67 / 100 : ℚ) by norm_num]
    refine roundDec_eval_pos' (67 / 100 : ℚ) (67 / 100 : ℚ) 670000000000 (-1 : ℤ) ?_
    norm_num
  have h14 : decSub (1157 / 25 : ℚ) (1157 / 25 : ℚ) = (0 : ℚ) := by
    rw [decSub, show (1157 / 25 : ℚ) - (1157 / 25 : ℚ) = (0 : ℚ) by norm_num]
    exact roundDec_zero
  have h15 : diffsOf [(2217 / 50 : ℚ), (4409 / 100 : ℚ), (883 / 20 : ℚ), (4361 / 100 : ℚ), (4433 / 100 : ℚ), (4483 / 100 : ℚ), (451 / 10 : ℚ), (2271 / 50 : ℚ), (1146 / 25 : ℚ), (1152 / 25 : ℚ), (4589 / 100 : ℚ), (4603 / 100 : ℚ), (4561 / 100 : ℚ), (1157 / 25 : ℚ), (1157 / 25 : ℚ)] = [(-(1 / 4) : ℚ), (3 / 50 : ℚ), (-(27 / 50) : ℚ), (18 / 25 : ℚ), (1 / 2 : ℚ), (27 / 100 : ℚ), (8 / 25 : ℚ), (21 / 50 : ℚ), (6 / 25 : ℚ), (-(19 / 100) : ℚ), (7 / 50 : ℚ), (-(21 / 50) : ℚ), (67 / 100 : ℚ), (0 : ℚ)] := by
    rw [show diffsOf [(2217 / 50 : ℚ), (4409 / 100 : ℚ), (883 / 20 : ℚ), (4361 / 100 : ℚ), (4433 / 100 : ℚ), (4483 / 100 : ℚ), (451 / 10 : ℚ), (2271 / 50 : ℚ), (1146 / 25 : ℚ), (1152 / 25 : ℚ), (4589 / 100 : ℚ), (4603 / 100 : ℚ), (4561 / 100 : ℚ), (1157 / 25 : ℚ), (1157 / 25 : ℚ)] = [decSub (4409 / 100 : ℚ) (2217 / 50 : ℚ), decSub (883 / 20 : ℚ) (4409 / 100 : ℚ), decSub (4361 / 100 : ℚ) (883 / 20 : ℚ), decSub (4433 / 100 : ℚ) (4361 / 100 : ℚ), decSub (4483 / 100 : ℚ) (4433 / 100 : ℚ), decSub (451 / 10 : ℚ) (4483 / 100 : ℚ), decSub (2271 / 50 : ℚ) (451 / 10 : ℚ), decSub (1146 / 25 : ℚ) (2271 / 50 : ℚ), decSub (1152 / 25 : ℚ) (1146 / 25 : ℚ), decSub (4589 / 100 : ℚ) (1152 / 25 : ℚ), decSub (4603 / 100 : ℚ) (4589 / 100 : ℚ), decSub (4561 / 100 : ℚ) (4603 / 100 : ℚ), decSub (1157 / 25 : ℚ) (4561 / 100 : ℚ), decSub (1157 / 25 : ℚ) (1157 / 25 : ℚ)] from rfl, h1, h2, h3, h4, h5, h6, h7, h8, h9, h10, h11, h12, h13, h14]
  have h16 : gainOf (-(1 / 4) : ℚ) = (0 : ℚ) := by rw [gainOf, if_neg (by norm_num)]
  have h17 : gainOf (3 / 50 : ℚ) = (3 / 50 : ℚ) := by rw [gainOf, if_pos (by norm_num)]
  have h18 : gainOf (-(27 / 50) : ℚ) = (0 : ℚ) := by rw [gainOf, if_neg (by norm_num)]
  have h19 : gainOf (18 / 25 : ℚ) = (18 / 25 : ℚ) := by rw [gainOf, if_pos (by norm_num)]
  have h20 : gainOf (1 / 2 : ℚ) = (1 / 2 : ℚ) := by rw [gainOf, if_pos (by norm_num)]
  have h21 : gainOf (27 / 100 : ℚ) = (27 / 100 : ℚ) := by rw [gainOf, if_pos (by norm_num)]
  have h22 : gainOf (8 / 25 : ℚ) = (8 / 25 : ℚ) := by rw [gainOf, if_pos (by norm_num)]
  have h23 : gainOf (21 / 50 : ℚ) = (21 / 50 : ℚ) := by rw [gainOf, if_pos (by norm_num)]
  have h24 : gainOf (6 / 25 : ℚ) = (6 / 25 : ℚ) := by rw [gainOf, if_pos (by norm_num)]
  have h25 : gainOf (-(19 / 100) : ℚ) = (0 : ℚ) := by rw [gainOf, if_neg (by norm_num)]
  have h26 : gainOf (7 / 50 : ℚ) = (7 / 50 : ℚ) := by rw [gainOf, if_pos (by norm_num)]
  have h27 : gainOf (-(21 / 50) : ℚ) = (0 : ℚ) := by rw [gainOf, if_neg (by norm_num)]
  have h28 : gainOf (67 / 100 : ℚ) = (67 / 100 : ℚ) := by rw [gainOf, if_pos (by norm_num)]
  have h29 : gainOf (0 : ℚ) = (0 : ℚ) := by rw [gainOf, if_neg (by norm_num)]
  have h30 : lossOf (-(1 / 4) : ℚ) = (1 / 4 : ℚ) := by
    rw [lossOf, if_neg (by norm_num)]
    norm_num
  have h31 : lossOf (3 / 50 : ℚ) = (0 : ℚ) := by rw [lossOf, if_pos (by norm_num)]
  have h32 : lossOf (-(27 / 50) : ℚ) = (27 / 50 : ℚ) := by
    rw [lossOf, if_neg (by norm_num)]
    norm_num
  have h33 : lossOf (18 / 25 : ℚ) = (0 : ℚ) := by rw [lossOf, if_pos (by norm_num)]
  have h34 : lossOf (1 / 2 : ℚ) = (0 : ℚ) := by rw [lossOf, if_pos (by norm_num)]
  have h35 : lossOf (27 / 100 : ℚ) = (0 : ℚ) := by rw [lossOf, if_pos (by norm_num)]
  have h36 : lossOf (8 / 25 : ℚ) = (0 : ℚ) := by rw [lossOf, if_pos (by norm_num)]
  have h37 : lossOf (21 / 50 : ℚ) = (0 : ℚ) := by rw [lossOf, if_pos (by norm_num)]
  have h38 : lossOf (6 / 25 : ℚ) = (0 : ℚ) := by rw [lossOf, if_pos (by norm_num)]
  have h39 : lossOf (-(19 / 100) : ℚ) = (19 / 100 : ℚ) := by
    rw [lossOf, if_neg (by norm_num)]
    norm_num
  have h40 : lossOf (7 / 50 : ℚ) = (0 : ℚ) := by rw [lossOf, if_pos (by norm_num)]
  have h41 : lossOf (-(21 / 50) : ℚ) = (21 / 50 : ℚ) := by
    rw [lossOf, if_neg (by norm_num)]
    norm_num
  have h42 : lossOf (67 / 100 : ℚ) = (0 : ℚ) := by rw [lossOf, if_pos (by norm_num)]
  have h43 : lossOf (0 : ℚ) = (0 : ℚ) := by
    rw [lossOf, if_neg (by norm_num)]
    norm_num
  have h44 : List.map gainOf [(-(1 / 4) : ℚ), (3 / 50 : ℚ), (-(27 / 50) : ℚ), (18 / 25 : ℚ), (1 / 2 : ℚ), (27 / 100 : ℚ), (8 / 25 : ℚ), (21 / 50 : ℚ), (6 / 25 : ℚ), (-(19 / 100) : ℚ), (7 / 50 : ℚ), (-(21 / 50) : ℚ), (67 / 100 : ℚ), (0 : ℚ)] = [(0 : ℚ), (3 / 50 : ℚ), (0 : ℚ), (18 / 25 : ℚ), (1 / 2 : ℚ), (27 / 100 : ℚ), (8 / 25 : ℚ), (21 / 50 : ℚ), (6 / 25 : ℚ), (0 : ℚ), (7 / 50 : ℚ), (0 : ℚ), (67 / 100 : ℚ), (0 : ℚ)] := by
    rw [show List.map gainOf [(-(1 / 4) : ℚ), (3 / 50 : ℚ), (-(27 / 50) : ℚ), (18 / 25 : ℚ), (1 / 2 : ℚ), (27 / 100 : ℚ), (8 / 25 : ℚ), (21 / 50 : ℚ), (6 / 25 : ℚ), (-(19 / 100) : ℚ), (7 / 50 : ℚ), (-(21 / 50) : ℚ), (67 / 100 : ℚ), (0 : ℚ)] = [gainOf (-(1 / 4) : ℚ), gainOf (3 / 50 : ℚ), gainOf (-(27 / 50) : ℚ), gainOf (18 / 25 : ℚ), gainOf (1 / 2 : ℚ), gainOf (27 / 100 : ℚ), gainOf (8 / 25 : ℚ), gainOf (21 / 50 : ℚ), gainOf (6 / 25 : ℚ), gainOf (-(19 / 100) : ℚ), gainOf (7 / 50 : ℚ), gainOf (-(21 / 50) : ℚ), gainOf (67 / 100 : ℚ), gainOf (0 : ℚ)] from rfl, h16, h17, h18, h19, h20, h21, h22, h23, h24, h25, h26, h27, h28, h29]
  have h45 : List.map lossOf [(-(1 / 4) : ℚ), (3 / 50 : ℚ), (-(27 / 50) : ℚ), (18 / 25 : ℚ), (1 / 2 : ℚ), (27 / 100 : ℚ), (8 / 25 : ℚ), (21 / 50 : ℚ), (6 / 25 : ℚ), (-(19 / 100) : ℚ), (7 / 50 : ℚ), (-(21 / 50) : ℚ), (67 / 100 : ℚ), (0 : ℚ)] = [(1 / 4 : ℚ), (0 : ℚ), (27 / 50 : ℚ), (0 : ℚ), (0 : ℚ), (0 : ℚ), (0 : ℚ), (0 : ℚ), (0 : ℚ), (19 / 100 : ℚ), (0 : ℚ), (21 / 50 : ℚ), (0 : ℚ), (0 : ℚ)] := by
    rw [show List.map lossOf [(-(1 / 4) : ℚ), (3 / 50 : ℚ), (-(27 / 50) : ℚ), (18 / 25 : ℚ), (1 / 2 : ℚ), (27 / 100 : ℚ), (8 / 25 : ℚ), (21 / 50 : ℚ), (6 / 25 : ℚ), (-(19 / 100) : ℚ), (7 / 50 : ℚ), (-(21 / 50) : ℚ), (67 / 100 : ℚ), (0 : ℚ)] = [lossOf (-(1 / 4) : ℚ), lossOf (3 / 50 : ℚ), lossOf (-(27 / 50) : ℚ), lossOf (18 / 25 : ℚ), lossOf (1 / 2 : ℚ), lossOf (27 / 100 : ℚ), lossOf (8 / 25 : ℚ), lossOf (21 / 50 : ℚ), lossOf (6 / 25 : ℚ), lossOf (-(19 / 100) : ℚ), lossOf (7 / 50 : ℚ), lossOf (-(21 / 50) : ℚ), lossOf (67 / 100 : ℚ), lossOf (0 : ℚ)] from rfl, h30, h31, h32, h33, h34, h35, h36, h37, h38, h39, h40, h41, h42, h43]
  have h46 : List.take 14 [(0 : ℚ), (3 / 50 : ℚ), (0 : ℚ), (18 / 25 : ℚ), (1 / 2 : ℚ), (27 / 100 : ℚ), (8 / 25 : ℚ), (21 / 50 : ℚ), (6 / 25 : ℚ), (0 : ℚ), (7 / 50 : ℚ), (0 : ℚ), (67 / 100 : ℚ), (0 : ℚ)] = [(0 : ℚ), (3 / 50 : ℚ), (0 : ℚ), (18 / 25 : ℚ), (1 / 2 : ℚ), (27 / 100 : ℚ), (8 / 25 : ℚ), (21 / 50 : ℚ), (6 / 25 : ℚ), (0 : ℚ), (7 / 50 : ℚ), (0 : ℚ), (67 / 100 : ℚ), (0 : ℚ)] := rfl
  have h47 : List.drop 14 [(0 : ℚ), (3 / 50 : ℚ), (0 : ℚ), (18 / 25 : ℚ), (1 / 2 : ℚ), (27 / 100 : ℚ), (8 / 25 : ℚ), (21 / 50 : ℚ), (6 / 25 : ℚ), (0 : ℚ), (7 / 50 : ℚ), (0 : ℚ), (67 / 100 : ℚ), (0 : ℚ)] = [] := rfl
  have h48 : decAdd (0 : ℚ) (0 : ℚ) = (0 : ℚ) := by
    rw [decAdd, show (0 : ℚ) + (0 : ℚ) = (0 : ℚ) by norm_num]
    exact roundDec_zero
  have h49 : decAdd (0 : ℚ) (3 / 50 : ℚ) = (3 / 50 : ℚ) := by
    rw [decAdd, show (0 : ℚ) + (3 / 50 : ℚ) = (3 / 50 : ℚ) by norm_num]
    refine roundDec_eval_pos' (3 / 50 : ℚ) (3 / 50 : ℚ) 600000000000 (-2 : ℤ) ?_
    norm_num
  have h50 : decAdd (3 / 50 : ℚ) (0 : ℚ) = (3 / 50 : ℚ) := by
    rw [decAdd, show (3 / 50 : ℚ) + (0 : ℚ) = (3 / 50 : ℚ) by norm_num]
    refine roundDec_eval_pos' (3 / 50 : ℚ) (3 / 50 : ℚ) 600000000000 (-2 : ℤ) ?_
    norm_num
  have h51 : decAdd (3 / 50 : ℚ) (18 / 25 : ℚ) = (39 / 50 : ℚ) := by
    rw [decAdd, show (3 / 50 : ℚ) + (18 / 25 : ℚ) = (39 / 50 : ℚ) by norm_num]
    refine roundDec_eval_pos' (39 / 50 : ℚ) (39 / 50 : ℚ) 780000000000 (-1 : ℤ) ?_
    norm_num
  have h52 : decAdd (39 / 50 : ℚ) (1 / 2 : ℚ) = (32 / 25 : ℚ) := by
    rw [decAdd, show (39 / 50 : ℚ) + (1 / 2 : ℚ) = (32 / 25 : ℚ) by norm_num]
    refine roundDec_eval_pos' (32 / 25 : ℚ) (32 / 25 : ℚ) 128000000000 (0 : ℤ) ?_
    norm_num
  have h53 : decAdd (32 / 25 : ℚ) (27 / 100 : ℚ) = (31 / 20 : ℚ) := by
    rw [decAdd, show (32 / 25 : ℚ) + (27 / 100 : ℚ) = (31 / 20 : ℚ) by norm_num]
    refine roundDec_eval_pos' (31 / 20 : ℚ) (31 / 20 : ℚ) 155000000000 (0 : ℤ) ?_
    norm_num
  have h54 : decAdd (31 / 20 : ℚ) (8 / 25 : ℚ) = (187 / 100 : ℚ) := by
    rw [decAdd, show (31 / 20 : ℚ) + (8 / 25 : ℚ) = (187 / 100 : ℚ) by norm_num]
    refine roundDec_eval_pos' (187 / 100 : ℚ) (187 / 100 : ℚ) 187000000000 (0 : ℤ) ?_
    norm_num
  have h55 : decAdd (187 / 100 : ℚ) (21 / 50 : ℚ) = (229 / 100 : ℚ) := by
    rw [decAdd, show (187 / 100 : ℚ) + (21 / 50 : ℚ) = (229 / 100 : ℚ) by norm_num]
    refine roundDec_eval_pos' (229 / 100 : ℚ) (229 / 100 : ℚ) 229000000000 (0 : ℤ) ?_
    norm_num
  have h56 : decAdd (229 / 100 : ℚ) (6 / 25 : ℚ) = (253 / 100 : ℚ) := by
    rw [decAdd, show (229 / 100 : ℚ) + (6 / 25 : ℚ) = (253 / 100 : ℚ) by norm_num]
    refine roundDec_eval_pos' (253 / 100 : ℚ) (253 / 100 : ℚ) 253000000000 (0 : ℤ) ?_
    norm_num
  have h57 : decAdd (253 / 100 : ℚ) (0 : ℚ) = (253 / 100 : ℚ) := by
    rw [decAdd, show (253 / 100 : ℚ) + (0 : ℚ) = (253 / 100 : ℚ) by norm_num]
    refine roundDec_eval_pos' (253 / 100 : ℚ) (253 / 100 : ℚ) 253000000000 (0 : ℤ) ?_
    norm_num
  have h58 : decAdd (253 / 100 : ℚ) (7 / 50 : ℚ) = (267 / 100 : ℚ) := by
    rw [decAdd, show (253 / 100 : ℚ) + (7 / 50 : ℚ) = (267 / 100 : ℚ) by norm_num]
    refine roundDec_eval_pos' (267 / 100 : ℚ) (267 / 100 : ℚ) 267000000000 (0 : ℤ) ?_
    norm_num
  have h59 : decAdd (267 / 100 : ℚ) (0 : ℚ) = (267 / 100 : ℚ) := by
    rw [decAdd, show (267 / 100 : ℚ) + (0 : ℚ) = (267 / 100 : ℚ) by norm_num]
    refine roundDec_eval_pos' (267 / 100 : ℚ) (267 / 100 : ℚ) 267000000000 (0 : ℤ) ?_
    norm_num
  have h60 : decAdd (267 / 100 : ℚ) (67 / 100 : ℚ) = (167 / 50 : ℚ) := by
    rw [decAdd, show (267 / 100 : ℚ) + (67 / 100 : ℚ) = (167 / 50 : ℚ) by norm_num]
    refine roundDec_eval_pos' (167 / 50 : ℚ) (167 / 50 : ℚ) 334000000000 (0 : ℤ) ?_
    norm_num
  have h61 : decAdd (167 / 50 : ℚ) (0 : ℚ) = (167 / 50 : ℚ) := by
    rw [decAdd, show (167 / 50 : ℚ) + (0 : ℚ) = (167 / 50 : ℚ) by norm_num]
    refine roundDec_eval_pos' (167 / 50 : ℚ) (167 / 50 : ℚ) 334000000000 (0 : ℤ) ?_
    norm_num
  have h62 : List.foldl decAdd 0 [(0 : ℚ), (3 / 50 : ℚ), (0 : ℚ), (18 / 25 : ℚ), (1 / 2 : ℚ), (27 / 100 : ℚ), (8 / 25 : ℚ), (21 / 50 : ℚ), (6 / 25 : ℚ), (0 : ℚ), (7 / 50 : ℚ), (0 : ℚ), (67 / 100 : ℚ), (0 : ℚ)] = (167 / 50 : ℚ) := by
    simp only [List.foldl_cons, List.foldl_nil]
    rw [h48, h49, h50, h51, h52, h53, h54, h55, h56, h57, h58, h59, h60, h61]
  have h63 : divD (167 / 50 : ℚ) ((14 : ℕ) : ℚ) = (238571428571 / 1000000000000 : ℚ) := by
    rw [divD, show (167 / 50 : ℚ) / ((14 : ℕ) : ℚ) = (167 / 700 : ℚ) by norm_num]
    refine roundDec_eval_pos' (167 / 700 : ℚ) (238571428571 / 1000000000000 : ℚ) 238571428571 (-1 : ℤ) ?_
    norm_num
  have h64 : seedAvg 14 [(0 : ℚ), (3 / 50 : ℚ), (0 : ℚ), (18 / 25 : ℚ), (1 / 2 : ℚ), (27 / 100 : ℚ), (8 / 25 : ℚ), (21 / 50 : ℚ), (6 / 25 : ℚ), (0 : ℚ), (7 / 50 : ℚ), (0 : ℚ), (67 / 100 : ℚ), (0 : ℚ)] = (238571428571 / 1000000000000 : ℚ) := by
    rw [seedAvg, h46, h62, h63]
  have h65 : smoothAvg 14 [(0 : ℚ), (3 / 50 : ℚ), (0 : ℚ), (18 / 25 : ℚ), (1 / 2 : ℚ), (27 / 100 : ℚ), (8 / 25 : ℚ), (21 / 50 : ℚ), (6 / 25 : ℚ), (0 : ℚ), (7 / 50 : ℚ), (0 : ℚ), (67 / 100 : ℚ), (0 : ℚ)] = (238571428571 / 1000000000000 : ℚ) := by
    rw [smoothAvg, h47, List.foldl_nil, h64]
  have h66 : List.take 14 [(1 / 4 : ℚ), (0 : ℚ), (27 / 50 : ℚ), (0 : ℚ), (0 : ℚ), (0 : ℚ), (0 : ℚ), (0 : ℚ), (0 : ℚ), (19 / 100 : ℚ), (0 : ℚ), (21 / 50 : ℚ), (0 : ℚ), (0 : ℚ)] = [(1 / 4 : ℚ), (0 : ℚ), (27 / 50 : ℚ), (0 : ℚ), (0 : ℚ), (0 : ℚ), (0 : ℚ), (0 : ℚ), (0 : ℚ), (19 / 100 : ℚ), (0 : ℚ), (21 / 50 : ℚ), (0 : ℚ), (0 : ℚ)] := rfl
  have h67 : List.drop 14 [(1 / 4 : ℚ), (0 : ℚ), (27 / 50 : ℚ), (0 : ℚ), (0 : ℚ), (0 : ℚ), (0 : ℚ), (0 : ℚ), (0 : ℚ), (19 / 100 : ℚ), (0 : ℚ), (21 / 50 : ℚ), (0 : ℚ), (0 : ℚ)] = [] := rfl
  have h68 : decAdd (0 : ℚ) (1 / 4 : ℚ) = (1 / 4 : ℚ) := by
    rw [decAdd, show (0 : ℚ) + (1 / 4 : ℚ) = (1 / 4 : ℚ) by norm_num]
    refine roundDec_eval_pos' (1 / 4 : ℚ) (1 / 4 : ℚ) 250000000000 (-1 : ℤ) ?_
    norm_num
  have h69 : decAdd (1 / 4 : ℚ) (0 : ℚ) = (1 / 4 : ℚ) := by
    rw [decAdd, show (1 / 4 : ℚ) + (0 : ℚ) = (1 / 4 : ℚ) by norm_num]
    refine roundDec_eval_pos' (1 / 4 : ℚ) (1 / 4 : ℚ) 250000000000 (-1 : ℤ) ?_
    norm_num
  have h70 : decAdd (1 / 4 : ℚ) (27 / 50 : ℚ) = (79 / 100 : ℚ) := by
    rw [decAdd, show (1 / 4 : ℚ) + (27 / 50 : ℚ) = (79 / 100 : ℚ) by norm_num]
    refine roundDec_eval_pos' (79 / 100 : ℚ) (79 / 100 : ℚ) 790000000000 (-1 : ℤ) ?_
    norm_num
  have h71 : decAdd (79 / 100 : ℚ) (0 : ℚ) = (79 / 100 : ℚ) := by
    rw [decAdd, show (79 / 100 : ℚ) + (0 : ℚ) = (79 / 100 : ℚ) by norm_num]
    refine roundDec_eval_pos' (79 / 100 : ℚ) (79 / 100 : ℚ) 790000000000 (-1 : ℤ) ?_
    norm_num
  have h72 : decAdd (79 / 100 : ℚ) (0 : ℚ) = (79 / 100 : ℚ) := by
    rw [decAdd, show (79 / 100 : ℚ) + (0 : ℚ) = (79 / 100 : ℚ) by norm_num]
    refine roundDec_eval_pos' (79 / 100 : ℚ) (79 / 100 : ℚ) 790000000000 (-1 : ℤ) ?_
    norm_num
  have h73 : decAdd (79 / 100 : ℚ) (0 : ℚ) = (79 / 100 : ℚ) := by
    rw [decAdd, show (79 / 100 : ℚ) + (0 : ℚ) = (79 / 100 : ℚ) by norm_num]
    refine roundDec_eval_pos' (79 / 100 : ℚ) (79 / 100 : ℚ) 790000000000 (-1 : ℤ) ?_
    norm_num
  have h74 : decAdd (79 / 100 : ℚ) (0 : ℚ) = (79 / 100 : ℚ) := by
    rw [decAdd, show (79 / 100 : ℚ) + (0 : ℚ) = (79 / 100 : ℚ) by norm_num]
    refine roundDec_eval_pos' (79 / 100 : ℚ) (79 / 100 : ℚ) 790000000000 (-1 : ℤ) ?_
    norm_num
  have h75 : decAdd (79 / 100 : ℚ) (0 : ℚ) = (79 / 100 : ℚ) := by
    rw [decAdd, show (79 / 100 : ℚ) + (0 : ℚ) = (79 / 100 : ℚ) by norm_num]
    refine roundDec_eval_pos' (79 / 100 : ℚ) (79 / 100 : ℚ) 790000000000 (-1 : ℤ) ?_
    norm_num
  have h76 : decAdd (79 / 100 : ℚ) (0 : ℚ) = (79 / 100 : ℚ) := by
    rw [decAdd, show (79 / 100 : ℚ) + (0 : ℚ) = (79 / 100 : ℚ) by norm_num]
    refine roundDec_eval_pos' (79 / 100 : ℚ) (79 / 100 : ℚ) 790000000000 (-1 : ℤ) ?_
    norm_num
  have h77 : decAdd (79 / 100 : ℚ) (19 / 100 : ℚ) = (49 / 50 : ℚ) := by
    rw [decAdd, show (79 / 100 : ℚ) + (19 / 100 : ℚ) = (49 / 50 : ℚ) by norm_num]
    refine roundDec_eval_pos' (49 / 50 : ℚ) (49 / 50 : ℚ) 980000000000 (-1 : ℤ) ?_
    norm_num
  have h78 : decAdd (49 / 50 : ℚ) (0 : ℚ) = (49 / 50 : ℚ) := by
    rw [decAdd, show (49 / 50 : ℚ) + (0 : ℚ) = (49 / 50 : ℚ) by norm_num]
    refine roundDec_eval_pos' (49 / 50 : ℚ) (49 / 50 : ℚ) 980000000000 (-1 : ℤ) ?_
    norm_num
  have h79 : decAdd (49 / 50 : ℚ) (21 / 50 : ℚ) = (7 / 5 : ℚ) := by
    rw [decAdd, show (49 / 50 : ℚ) + (21 / 50 : ℚ) = (7 / 5 : ℚ) by norm_num]
    refine roundDec_eval_pos' (7 / 5 : ℚ) (7 / 5 : ℚ) 140000000000 (0 : ℤ) ?_
    norm_num
  have h80 : decAdd (7 / 5 : ℚ) (0 : ℚ) = (7 / 5 : ℚ) := by
    rw [decAdd, show (7 / 5 : ℚ) + (0 : ℚ) = (7 / 5 : ℚ) by norm_num]
    refine roundDec_eval_pos' (7 / 5 : ℚ) (7 / 5 : ℚ) 140000000000 (0 : ℤ) ?_
    norm_num
  have h81 : decAdd (7 / 5 : ℚ) (0 : ℚ) = (7 / 5 : ℚ) := by
    rw [decAdd, show (7 / 5 : ℚ) + (0 : ℚ) = (7 / 5 : ℚ) by norm_num]
    refine roundDec_eval_pos' (7 / 5 : ℚ) (7 / 5 : ℚ) 140000000000 (0 : ℤ) ?_
    norm_num
  have h82 : List.foldl decAdd 0 [(1 / 4 : ℚ), (0 : ℚ), (27 / 50 : ℚ), (0 : ℚ), (0 : ℚ), (0 : ℚ), (0 : ℚ), (0 : ℚ), (0 : ℚ), (19 / 100 : ℚ), (0 : ℚ), (21 / 50 : ℚ), (0 : ℚ), (0 : ℚ)] = (7 / 5 : ℚ) := by
    simp only [List.foldl_cons, List.foldl_nil]
    rw [h68, h69, h70, h71, h72, h73, h74, h75, h76, h77, h78, h79, h80, h81]
  have h83 : divD (7 / 5 : ℚ) ((14 : ℕ) : ℚ) = (1 / 10 : ℚ) := by
    rw [divD, show (7 / 5 : ℚ) / ((14 : ℕ) : ℚ) = (1 / 10 : ℚ) by norm_num]
    refine roundDec_eval_pos' (1 / 10 : ℚ) (1 / 10 : ℚ) 100000000000 (-1 : ℤ) ?_
    norm_num
  have h84 : seedAvg 14 [(1 / 4 : ℚ), (0 : ℚ), (27 / 50 : ℚ), (0 : ℚ), (0 : ℚ), (0 : ℚ), (0 : ℚ), (0 : ℚ), (0 : ℚ), (19 / 100 : ℚ), (0 : ℚ), (21 / 50 : ℚ), (0 : ℚ), (0 : ℚ)] = (1 / 10 : ℚ) := by
    rw [seedAvg, h66, h82, h83]
  have h85 : smoothAvg 14 [(1 / 4 : ℚ), (0 : ℚ), (27 / 50 : ℚ), (0 : ℚ), (0 : ℚ), (0 : ℚ), (0 : ℚ), (0 : ℚ), (0 : ℚ), (19 / 100 : ℚ), (0 : ℚ), (21 / 50 : ℚ), (0 : ℚ), (0 : ℚ)] = (1 / 10 : ℚ) := by
    rw [smoothAvg, h67, List.foldl_nil, h84]
  have h86 : divD (238571428571 / 1000000000000 : ℚ) (1 / 10 : ℚ) = (238571428571 / 100000000000 : ℚ) := by
    rw [divD, show (238571428571 / 1000000000000 : ℚ) / (1 / 10 : ℚ) = (238571428571 / 100000000000 : ℚ) by norm_num]
    refine roundDec_eval_pos' (238571428571 / 100000000000 : ℚ) (238571428571 / 100000000000 : ℚ) 238571428571 (0 : ℤ) ?_
    norm_num
  have h87 : decAdd (1 : ℚ) (238571428571 / 100000000000 : ℚ) = (338571428571 / 100000000000 : ℚ) := by
    rw [decAdd, show (1 : ℚ) + (238571428571 / 100000000000 : ℚ) = (338571428571 / 100000000000 : ℚ) by norm_num]
    refine roundDec_eval_pos' (338571428571 / 100000000000 : ℚ) (338571428571 / 100000000000 : ℚ) 338571428571 (0 : ℤ) ?_
    norm_num
  have h88 : divD (100 : ℚ) (338571428571 / 100000000000 : ℚ) = (295358649789 / 10000000000 : ℚ) := by
    rw [divD, show (100 : ℚ) / (338571428571 / 100000000000 : ℚ) = (10000000000000 / 338571428571 : ℚ) by norm_num]
    refine roundDec_eval_pos' (10000000000000 / 338571428571 : ℚ) (295358649789 / 10000000000 : ℚ) 295358649789 (1 : ℤ) ?_
    norm_num
  have h89 : decSub (100 : ℚ) (295358649789 / 10000000000 : ℚ) = (704641350211 / 10000000000 : ℚ) := by
    rw [decSub, show (100 : ℚ) - (295358649789 / 10000000000 : ℚ) = (704641350211 / 10000000000 : ℚ) by norm_num]
    refine roundDec_eval_pos' (704641350211 / 10000000000 : ℚ) (704641350211 / 10000000000 : ℚ) 704641350211 (1 : ℤ) ?_
    norm_num
  have h90 : finalRsi (238571428571 / 1000000000000 : ℚ) (1 / 10 : ℚ) = (704641350211 / 10000000000 : ℚ) := by
    rw [finalRsi, if_neg (by norm_num), h86, h87, h88, h89]
  rw [compute_rsi_eq_ok [(2217 / 50 : ℚ), (4409 / 100 : ℚ), (883 / 20 : ℚ), (4361 / 100 : ℚ), (4433 / 100 : ℚ), (4483 / 100 : ℚ), (451 / 10 : ℚ), (2271 / 50 : ℚ), (1146 / 25 : ℚ), (1152 / 25 : ℚ), (4589 / 100 : ℚ), (4603 / 100 : ℚ), (4561 / 100 : ℚ), (1157 / 25 : ℚ), (1157 / 25 : ℚ)] 14 (by norm_num) (by simp), rsiCore,
    h15, h44, h45, h65, h85, h90]

theorem compute_c6_base :
    compute_rsi_from_closes [(8029048199 / 25 : ℚ), (40144393064 / 125 : ℚ), (321161853221 / 1000 : ℚ), (32116807683 / 100 : ℚ)] 3 = .ok (163984473137 / 2500000000 : ℚ) := by
  have h1 : decSub (40144393064 / 125 : ℚ) (8029048199 / 25 : ℚ) = (-(847931 / 125) : ℚ) := by
    rw [decSub, show (40144393064 / 125 : ℚ) - (8029048199 / 25 : ℚ) = (-(847931 / 125) : ℚ) by norm_num]
    refine roundDec_eval_neg' (-(847931 / 125) : ℚ) (-(847931 / 125) : ℚ) 678344800000 (3 : ℤ) ?_
    norm_num
  have h2 : decSub (321161853221 / 1000 : ℚ) (40144393064 / 125 : ℚ) = (6708709 / 1000 : ℚ) := by
    rw [decSub, show (321161853221 / 1000 : ℚ) - (40144393064 / 125 : ℚ) = (6708709 / 1000 : ℚ) by norm_num]
    refine roundDec_eval_pos' (6708709 / 1000 : ℚ) (6708709 / 1000 : ℚ) 670870900000 (3 : ℤ) ?_
    norm_num
  have h3 : decSub (32116807683 / 100 : ℚ) (321161853221 / 1000 : ℚ) = (6223609 / 1000 : ℚ) := by
    rw [decSub, show (32116807683 / 100 : ℚ) - (321161853221 / 1000 : ℚ) = (6223609 / 1000 : ℚ) by norm_num]
    refine roundDec_eval_pos' (6223609 / 1000 : ℚ) (6223609 / 1000 : ℚ) 622360900000 (3 : ℤ) ?_
    norm_num
  have h4 : diffsOf [(8029048199 / 25 : ℚ), (40144393064 / 125 : ℚ), (321161853221 / 1000 : ℚ), (32116807683 / 100 : ℚ)] = [(-(847931 / 125) : ℚ), (6708709 / 1000 : ℚ), (6223609 / 1000 : ℚ)] := by
    rw [show diffsOf [(8029048199 / 25 : ℚ), (40144393064 / 125 : ℚ), (321161853221 / 1000 : ℚ), (32116807683 / 100 : ℚ)] = [decSub (40144393064 / 125 : ℚ) (8029048199 / 25 : ℚ), decSub (321161853221 / 1000 : ℚ) (40144393064 / 125 : ℚ), decSub (32116807683 / 100 : ℚ) (321161853221 / 1000 : ℚ)] from rfl, h1, h2, h3]
  have h5 : gainOf (-(847931 / 125) : ℚ) = (0 : ℚ) := by rw [gainOf, if_neg (by norm_num)]
  have h6 : gainOf (6708709 / 1000 : ℚ) = (6708709 / 1000 : ℚ) := by rw [gainOf, if_pos (by norm_num)]
  have h7 : gainOf (6223609 / 1000 : ℚ) = (6223609 / 1000 : ℚ) := by rw [gainOf, if_pos (by norm_num)]
  have h8 : lossOf (-(847931 / 125) : ℚ) = (847931 / 125 : ℚ) := by
    rw [lossOf, if_neg (by norm_num)]
    norm_num
  have h9 : lossOf (6708709 / 1000 : ℚ) = (0 : ℚ) := by rw [lossOf, if_pos (by norm_num)]
  have h10 : lossOf (6223609 / 1000 : ℚ) = (0 : ℚ) := by rw [lossOf, if_pos (by norm_num)]
  have h11 : List.map gainOf [(-(847931 / 125) : ℚ), (6708709 / 1000 : ℚ), (6223609 / 1000 : ℚ)] = [(0 : ℚ), (6708709 / 1000 : ℚ), (6223609 / 1000 : ℚ)] := by
    rw [show List.map gainOf [(-(847931 / 125) : ℚ), (6708709 / 1000 : ℚ), (6223609 / 1000 : ℚ)] = [gainOf (-(847931 / 125) : ℚ), gainOf (6708709 / 1000 : ℚ), gainOf (6223609 / 1000 : ℚ)] from rfl, h5, h6, h7]
  have h12 : List.map lossOf [(-(847931 / 125) : ℚ), (6708709 / 1000 : ℚ), (6223609 / 1000 : ℚ)] = [(847931 / 125 : ℚ), (0 : ℚ), (0 : ℚ)] := by
    rw [show List.map lossOf [(-(847931 / 125) : ℚ), (6708709 / 1000 : ℚ), (6223609 / 1000 : ℚ)] = [lossOf (-(847931 / 125) : ℚ), lossOf (6708709 / 1000 : ℚ), lossOf (6223609 / 1000 : ℚ)] from rfl, h8, h9, h10]
  have h13 : List.take 3 [(0 : ℚ), (6708709 / 1000 : ℚ), (6223609 / 1000 : ℚ)] = [(0 : ℚ), (6708709 / 1000 : ℚ), (6223609 / 1000 : ℚ)] := rfl
  have h14 : List.drop 3 [(0 : ℚ), (6708709 / 1000 : ℚ), (6223609 / 1000 : ℚ)] = [] := rfl
  have h15 : decAdd (0 : ℚ) (0 : ℚ) = (0 : ℚ) := by
    rw [decAdd, show (0 : ℚ) + (0 : ℚ) = (0 : ℚ) by norm_num]
    exact roundDec_zero
  have h16 : decAdd (0 : ℚ) (6708709 / 1000 : ℚ) = (6708709 / 1000 : ℚ) := by
    rw [decAdd, show (0 : ℚ) + (6708709 / 1000 : ℚ) = (6708709 / 1000 : ℚ) by norm_num]
    refine roundDec_eval_pos' (6708709 / 1000 : ℚ) (6708709 / 1000 : ℚ) 670870900000 (3 : ℤ) ?_
    norm_num
  have h17 : decAdd (6708709 / 1000 : ℚ) (6223609 / 1000 : ℚ) = (6466159 / 500 : ℚ) := by
    rw [decAdd, show (6708709 / 1000 : ℚ) + (6223609 / 1000 : ℚ) = (6466159 / 500 : ℚ) by norm_num]
    refine roundDec_eval_pos' (6466159 / 500 : ℚ) (6466159 / 500 : ℚ) 129323180000 (4 : ℤ) ?_
    norm_num
  have h18 : List.foldl decAdd 0 [(0 : ℚ), (6708709 / 1000 : ℚ), (6223609 / 1000 : ℚ)] = (6466159 / 500 : ℚ) := by
    simp only [List.foldl_cons, List.foldl_nil]
    rw [h15, h16, h17]
  have h19 : divD (6466159 / 500 : ℚ) ((3 : ℕ) : ℚ) = (431077266667 / 100000000 : ℚ) := by
    rw [divD, show (6466159 / 500 : ℚ) / ((3 : ℕ) : ℚ) = (6466159 / 1500 : ℚ) by norm_num]
    refine roundDec_eval_pos' (6466159 / 1500 : ℚ) (431077266667 / 100000000 : ℚ) 431077266667 (3 : ℤ) ?_
    norm_num
  have h20 : seedAvg 3 [(0 : ℚ), (6708709 / 1000 : ℚ), (6223609 / 1000 : ℚ)] = (431077266667 / 100000000 : ℚ) := by
    rw [seedAvg, h13, h18, h19]
  have h21 : smoothAvg 3 [(0 : ℚ), (6708709 / 1000 : ℚ), (6223609 / 1000 : ℚ)] = (431077266667 / 100000000 : ℚ) := by
    rw [smoothAvg, h14, List.foldl_nil, h20]
  have h22 : List.take 3 [(847931 / 125 : ℚ), (0 : ℚ), (0 : ℚ)] = [(847931 / 125 : ℚ), (0 : ℚ), (0 : ℚ)] := rfl
  have h23 : List.drop 3 [(847931 / 125 : ℚ), (0 : ℚ), (0 : ℚ)] = [] := rfl
  have h24 : decAdd (0 : ℚ) (847931 / 125 : ℚ) = (847931 / 125 : ℚ) := by
    rw [decAdd, show (0 : ℚ) + (847931 / 125 : ℚ) = (847931 / 125 : ℚ) by norm_num]
    refine roundDec_eval_pos' (847931 / 125 : ℚ) (847931 / 125 : ℚ) 678344800000 (3 : ℤ) ?_
    norm_num
  have h25 : decAdd (847931 / 125 : ℚ) (0 : ℚ) = (847931 / 125 : ℚ) := by
    rw [decAdd, show (847931 / 125 : ℚ) + (0 : ℚ) = (847931 / 125 : ℚ) by norm_num]
    refine roundDec_eval_pos' (847931 / 125 : ℚ) (847931 / 125 : ℚ) 678344800000 (3 : ℤ) ?_
    norm_num
  have h26 : decAdd (847931 / 125 : ℚ) (0 : ℚ) = (847931 / 125 : ℚ) := by
    rw [decAdd, show (847931 / 125 : ℚ) + (0 : ℚ) = (847931 / 125 : ℚ) by norm_num]
    refine roundDec_eval_pos' (847931 / 125 : ℚ) (847931 / 125 : ℚ) 678344800000 (3 : ℤ) ?_
    norm_num
  have h27 : List.foldl decAdd 0 [(847931 / 125 : ℚ), (0 : ℚ), (0 : ℚ)] = (847931 / 125 : ℚ) := by
    simp only [List.foldl_cons, List.foldl_nil]
    rw [h24, h25, h26]
  have h28 : divD (847931 / 125 : ℚ) ((3 : ℕ) : ℚ) = (226114933333 / 100000000 : ℚ) := by
    rw [divD, show (847931 / 125 : ℚ) / ((3 : ℕ) : ℚ) = (847931 / 375 : ℚ) by norm_num]
    refine roundDec_eval_pos' (847931 / 375 : ℚ) (226114933333 / 100000000 : ℚ) 226114933333 (3 : ℤ) ?_
    norm_num
  have h29 : seedAvg 3 [(847931 / 125 : ℚ), (0 : ℚ), (0 : ℚ)] = (226114933333 / 100000000 : ℚ) := by
    rw [seedAvg, h22, h27, h28]
  have h30 : smoothAvg 3 [(847931 / 125 : ℚ), (0 : ℚ), (0 : ℚ)] = (226114933333 / 100000000 : ℚ) := by
    rw [smoothAvg, h23, List.foldl_nil, h29]
  have h31 : divD (431077266667 / 100000000 : ℚ) (226114933333 / 100000000 : ℚ) = (38129039981 / 20000000000 : ℚ) := by
    rw [divD, show (431077266667 / 100000000 : ℚ) / (226114933333 / 100000000 : ℚ) = (431077266667 / 226114933333 : ℚ) by norm_num]
    refine roundDec_eval_pos' (431077266667 / 226114933333 : ℚ) (38129039981 / 20000000000 : ℚ) 190645199905 (0 : ℤ) ?_
    norm_num
  have h32 : decAdd (1 : ℚ) (38129039981 / 20000000000 : ℚ) = (58129039981 / 20000000000 : ℚ) := by
    rw [decAdd, show (1 : ℚ) + (38129039981 / 20000000000 : ℚ) = (58129039981 / 20000000000 : ℚ) by norm_num]
    refine roundDec_eval_pos' (58129039981 / 20000000000 : ℚ) (58129039981 / 20000000000 : ℚ) 290645199905 (0 : ℤ) ?_
    norm_num
  have h33 : divD (100 : ℚ) (58129039981 / 20000000000 : ℚ) = (86015526863 / 2500000000 : ℚ) := by
    rw [divD, show (100 : ℚ) / (58129039981 / 20000000000 : ℚ) = (2000000000000 / 58129039981 : ℚ) by norm_num]
    refine roundDec_eval_pos' (2000000000000 / 58129039981 : ℚ) (86015526863 / 2500000000 : ℚ) 344062107452 (1 : ℤ) ?_
    norm_num
  have h34 : decSub (100 : ℚ) (86015526863 / 2500000000 : ℚ) = (163984473137 / 2500000000 : ℚ) := by
    rw [decSub, show (100 : ℚ) - (86015526863 / 2500000000 : ℚ) = (163984473137 / 2500000000 : ℚ) by norm_num]
    refine roundDec_eval_pos' (163984473137 / 2500000000 : ℚ) (163984473137 / 2500000000 : ℚ) 655937892548 (1 : ℤ) ?_
    norm_num
  have h35 : finalRsi (431077266667 / 100000000 : ℚ) (226114933333 / 100000000 : ℚ) = (163984473137 / 2500000000 : ℚ) := by
    rw [finalRsi, if_neg (by norm_num), h31, h32, h33, h34]
  rw [compute_rsi_eq_ok [(8029048199 / 25 : ℚ), (40144393064 / 125 : ℚ), (321161853221 / 1000 : ℚ), (32116807683 / 100 : ℚ)] 3 (by norm_num) (by simp), rsiCore,
    h4, h11, h12, h21, h30, h35]

theorem compute_c6_ext :
    compute_rsi_from_closes [(8029048199 / 25 : ℚ), (40144393064 / 125 : ℚ), (321161853221 / 1000 : ℚ), (32116807683 / 100 : ℚ), (32116807683000000001 / 100000000000 : ℚ)] 3 = .ok (655937892547 / 10000000000 : ℚ) := by
  have h1 : decSub (40144393064 / 125 : ℚ) (8029048199 / 25 : ℚ) = (-(847931 / 125) : ℚ) := by
    rw [decSub, show (40144393064 / 125 : ℚ) - (8029048199 / 25 : ℚ) = (-(847931 / 125) : ℚ) by norm_num]
    refine roundDec_eval_neg' (-(847931 / 125) : ℚ) (-(847931 / 125) : ℚ) 678344800000 (3 : ℤ) ?_
    norm_num
  have h2 : decSub (321161853221 / 1000 : ℚ) (40144393064 / 125 : ℚ) = (6708709 / 1000 : ℚ) := by
    rw [decSub, show (321161853221 / 1000 : ℚ) - (40144393064 / 125 : ℚ) = (6708709 / 1000 : ℚ) by norm_num]
    refine roundDec_eval_pos' (6708709 / 1000 : ℚ) (6708709 / 1000 : ℚ) 670870900000 (3 : ℤ) ?_
    norm_num
  have h3 : decSub (32116807683 / 100 : ℚ) (321161853221 / 1000 : ℚ) = (6223609 / 1000 : ℚ) := by
    rw [decSub, show (32116807683 / 100 : ℚ) - (321161853221 / 1000 : ℚ) = (6223609 / 1000 : ℚ) by norm_num]
    refine roundDec_eval_pos' (6223609 / 1000 : ℚ) (6223609 / 1000 : ℚ) 622360900000 (3 : ℤ) ?_
    norm_num
  have h4 : decSub (32116807683000000001 / 100000000000 : ℚ) (32116807683 / 100 : ℚ) = (1 / 100000000000 : ℚ) := by
    rw [decSub, show (32116807683000000001 / 100000000000 : ℚ) - (32116807683 / 100 : ℚ) = (1 / 100000000000 : ℚ) by norm_num]
    refine roundDec_eval_pos' (1 / 100000000000 : ℚ) (1 / 100000000000 : ℚ) 100000000000 (-11 : ℤ) ?_
    norm_num
  have h5 : diffsOf [(8029048199 / 25 : ℚ), (40144393064 / 125 : ℚ), (321161853221 / 1000 : ℚ), (32116807683 / 100 : ℚ), (32116807683000000001 / 100000000000 : ℚ)] = [(-(847931 / 125) : ℚ), (6708709 / 1000 : ℚ), (6223609 / 1000 : ℚ), (1 / 100000000000 : ℚ)] := by
    rw [show diffsOf [(8029048199 / 25 : ℚ), (40144393064 / 125 : ℚ), (321161853221 / 1000 : ℚ), (32116807683 / 100 : ℚ), (32116807683000000001 / 100000000000 : ℚ)] = [decSub (40144393064 / 125 : ℚ) (8029048199 / 25 : ℚ), decSub (321161853221 / 1000 : ℚ) (40144393064 / 125 : ℚ), decSub (32116807683 / 100 : ℚ) (321161853221 / 1000 : ℚ), decSub (32116807683000000001 / 100000000000 : ℚ) (32116807683 / 100 : ℚ)] from rfl, h1, h2, h3, h4]
  have h6 : gainOf (-(847931 / 125) : ℚ) = (0 : ℚ) := by rw [gainOf, if_neg (by norm_num)]
  have h7 : gainOf (6708709 / 1000 : ℚ) = (6708709 / 1000 : ℚ) := by rw [gainOf, if_pos (by norm_num)]
  have h8 : gainOf (6223609 / 1000 : ℚ) = (6223609 / 1000 : ℚ) := by rw [gainOf, if_pos (by norm_num)]
  have h9 : gainOf (1 / 100000000000 : ℚ) = (1 / 100000000000 : ℚ) := by rw [gainOf, if_pos (by norm_num)]
  have h10 : lossOf (-(847931 / 125) : ℚ) = (847931 / 125 : ℚ) := by
    rw [lossOf, if_neg (by norm_num)]
    norm_num
  have h11 : lossOf (6708709 / 1000 : ℚ) = (0 : ℚ) := by rw [lossOf, if_pos (by norm_num)]
  have h12 : lossOf (6223609 / 1000 : ℚ) = (0 : ℚ) := by rw [lossOf, if_pos (by norm_num)]
  have h13 : lossOf (1 / 100000000000 : ℚ) = (0 : ℚ) := by rw [lossOf, if_pos (by norm_num)]
  have h14 : List.map gainOf [(-(847931 / 125) : ℚ), (6708709 / 1000 : ℚ), (6223609 / 1000 : ℚ), (1 / 100000000000 : ℚ)] = [(0 : ℚ), (6708709 / 1000 : ℚ), (6223609 / 1000 : ℚ), (1 / 100000000000 : ℚ)] := by
    rw [show List.map gainOf [(-(847931 / 125) : ℚ), (6708709 / 1000 : ℚ), (6223609 / 1000 : ℚ), (1 / 100000000000 : ℚ)] = [gainOf (-(847931 / 125) : ℚ), gainOf (6708709 / 1000 : ℚ), gainOf (6223609 / 1000 : ℚ), gainOf (1 / 100000000000 : ℚ)] from rfl, h6, h7, h8, h9]
  have h15 : List.map lossOf [(-(847931 / 125) : ℚ), (6708709 / 1000 : ℚ), (6223609 / 1000 : ℚ), (1 / 100000000000 : ℚ)] = [(847931 / 125 : ℚ), (0 : ℚ), (0 : ℚ), (0 : ℚ)] := by
    rw [show List.map lossOf [(-(847931 / 125) : ℚ), (6708709 / 1000 : ℚ), (6223609 / 1000 : ℚ), (1 / 100000000000 : ℚ)] = [lossOf (-(847931 / 125) : ℚ), lossOf (6708709 / 1000 : ℚ), lossOf (6223609 / 1000 : ℚ), lossOf (1 / 100000000000 : ℚ)] from rfl, h10, h11, h12, h13]
  have h16 : List.take 3 [(0 : ℚ), (6708709 / 1000 : ℚ), (6223609 / 1000 : ℚ), (1 / 100000000000 : ℚ)] = [(0 : ℚ), (6708709 / 1000 : ℚ), (6223609 / 1000 : ℚ)] := rfl
  have h17 : List.drop 3 [(0 : ℚ), (6708709 / 1000 : ℚ), (6223609 / 1000 : ℚ), (1 / 100000000000 : ℚ)] = [(1 / 100000000000 : ℚ)] := rfl
  have h18 : decAdd (0 : ℚ) (0 : ℚ) = (0 : ℚ) := by
    rw [decAdd, show (0 : ℚ) + (0 : ℚ) = (0 : ℚ) by norm_num]
    exact roundDec_zero
  have h19 : decAdd (0 : ℚ) (6708709 / 1000 : ℚ) = (6708709 / 1000 : ℚ) := by
    rw [decAdd, show (0 : ℚ) + (6708709 / 1000 : ℚ) = (6708709 / 1000 : ℚ) by norm_num]
    refine roundDec_eval_pos' (6708709 / 1000 : ℚ) (6708709 / 1000 : ℚ) 670870900000 (3 : ℤ) ?_
    norm_num
  have h20 : decAdd (6708709 / 1000 : ℚ) (6223609 / 1000 : ℚ) = (6466159 / 500 : ℚ) := by
    rw [decAdd, show (6708709 / 1000 : ℚ) + (6223609 / 1000 : ℚ) = (6466159 / 500 : ℚ) by norm_num]
    refine roundDec_eval_pos' (6466159 / 500 : ℚ) (6466159 / 500 : ℚ) 129323180000 (4 : ℤ) ?_
    norm_num
  have h21 : List.foldl decAdd 0 [(0 : ℚ), (6708709 / 1000 : ℚ), (6223609 / 1000 : ℚ)] = (6466159 / 500 : ℚ) := by
    simp only [List.foldl_cons, List.foldl_nil]
    rw [h18, h19, h20]
  have h22 : divD (6466159 / 500 : ℚ) ((3 : ℕ) : ℚ) = (431077266667 / 100000000 : ℚ) := by
    rw [divD, show (6466159 / 500 : ℚ) / ((3 : ℕ) : ℚ) = (6466159 / 1500 : ℚ) by norm_num]
    refine roundDec_eval_pos' (6466159 / 1500 : ℚ) (431077266667 / 100000000 : ℚ) 431077266667 (3 : ℤ) ?_
    norm_num
  have h23 : seedAvg 3 [(0 : ℚ), (6708709 / 1000 : ℚ), (6223609 / 1000 : ℚ), (1 / 100000000000 : ℚ)] = (431077266667 / 100000000 : ℚ) := by
    rw [seedAvg, h16, h21, h22]
  have h24 : decMul (431077266667 / 100000000 : ℚ) (((3 : ℕ) : ℚ) - 1) = (431077266667 / 50000000 : ℚ) := by
    rw [decMul, show (431077266667 / 100000000 : ℚ) * (((3 : ℕ) : ℚ) - 1) = (431077266667 / 50000000 : ℚ) by norm_num]
    refine roundDec_eval_pos' (431077266667 / 50000000 : ℚ) (431077266667 / 50000000 : ℚ) 862154533334 (3 : ℤ) ?_
    norm_num
  have h25 : decAdd (431077266667 / 50000000 : ℚ) (1 / 100000000000 : ℚ) = (431077266667 / 50000000 : ℚ) := by
    rw [decAdd, show (431077266667 / 50000000 : ℚ) + (1 / 100000000000 : ℚ) = (862154533334001 / 100000000000 : ℚ) by norm_num]
    refine roundDec_eval_pos' (862154533334001 / 100000000000 : ℚ) (431077266667 / 50000000 : ℚ) 862154533334 (3 : ℤ) ?_
    norm_num
  have h26 : divD (431077266667 / 50000000 : ℚ) ((3 : ℕ) : ℚ) = (57476968889 / 20000000 : ℚ) := by
    rw [divD, show (431077266667 / 50000000 : ℚ) / ((3 : ℕ) : ℚ) = (431077266667 / 150000000 : ℚ) by norm_num]
    refine roundDec_eval_pos' (431077266667 / 150000000 : ℚ) (57476968889 / 20000000 : ℚ) 287384844445 (3 : ℤ) ?_
    norm_num
  have h27 : smoothStep 3 (431077266667 / 100000000 : ℚ) (1 / 100000000000 : ℚ) = (57476968889 / 20000000 : ℚ) := by
    rw [smoothStep, h24, h25, h26]
  have h28 : smoothAvg 3 [(0 : ℚ), (6708709 / 1000 : ℚ), (6223609 / 1000 : ℚ), (1 / 100000000000 : ℚ)] = (57476968889 / 20000000 : ℚ) := by
    rw [smoothAvg, h17]
    simp only [List.foldl_cons, List.foldl_nil]
    rw [h23, h27]
  have h29 : List.take 3 [(847931 / 125 : ℚ), (0 : ℚ), (0 : ℚ), (0 : ℚ)] = [(847931 / 125 : ℚ), (0 : ℚ), (0 : ℚ)] := rfl
  have h30 : List.drop 3 [(847931 / 125 : ℚ), (0 : ℚ), (0 : ℚ), (0 : ℚ)] = [(0 : ℚ)] := rfl
  have h31 : decAdd (0 : ℚ) (847931 / 125 : ℚ) = (847931 / 125 : ℚ) := by
    rw [decAdd, show (0 : ℚ) + (847931 / 125 : ℚ) = (847931 / 125 : ℚ) by norm_num]
    refine roundDec_eval_pos' (847931 / 125 : ℚ) (847931 / 125 : ℚ) 678344800000 (3 : ℤ) ?_
    norm_num
  have h32 : decAdd (847931 / 125 : ℚ) (0 : ℚ) = (847931 / 125 : ℚ) := by
    rw [decAdd, show (847931 / 125 : ℚ) + (0 : ℚ) = (847931 / 125 : ℚ) by norm_num]
    refine roundDec_eval_pos' (847931 / 125 : ℚ) (847931 / 125 : ℚ) 678344800000 (3 : ℤ) ?_
    norm_num
  have h33 : decAdd (847931 / 125 : ℚ) (0 : ℚ) = (847931 / 125 : ℚ) := by
    rw [decAdd, show (847931 / 125 : ℚ) + (0 : ℚ) = (847931 / 125 : ℚ) by norm_num]
    refine roundDec_eval_pos' (847931 / 125 : ℚ) (847931 / 125 : ℚ) 678344800000 (3 : ℤ) ?_
    norm_num
  have h34 : List.foldl decAdd 0 [(847931 / 125 : ℚ), (0 : ℚ), (0 : ℚ)] = (847931 / 125 : ℚ) := by
    simp only [List.foldl_cons, List.foldl_nil]
    rw [h31, h32, h33]
  have h35 : divD (847931 / 125 : ℚ) ((3 : ℕ) : ℚ) = (226114933333 / 100000000 : ℚ) := by
    rw [divD, show (847931 / 125 : ℚ) / ((3 : ℕ) : ℚ) = (847931 / 375 : ℚ) by norm_num]
    refine roundDec_eval_pos' (847931 / 375 : ℚ) (226114933333 / 100000000 : ℚ) 226114933333 (3 : ℤ) ?_
    norm_num
  have h36 : seedAvg 3 [(847931 / 125 : ℚ), (0 : ℚ), (0 : ℚ), (0 : ℚ)] = (226114933333 / 100000000 : ℚ) := by
    rw [seedAvg, h29, h34, h35]
  have h37 : decMul (226114933333 / 100000000 : ℚ) (((3 : ℕ) : ℚ) - 1) = (226114933333 / 50000000 : ℚ) := by
    rw [decMul, show (226114933333 / 100000000 : ℚ) * (((3 : ℕ) : ℚ) - 1) = (226114933333 / 50000000 : ℚ) by norm_num]
    refine roundDec_eval_pos' (226114933333 / 50000000 : ℚ) (226114933333 / 50000000 : ℚ) 452229866666 (3 : ℤ) ?_
    norm_num
  have h38 : decAdd (226114933333 / 50000000 : ℚ) (0 : ℚ) = (226114933333 / 50000000 : ℚ) := by
    rw [decAdd, show (226114933333 / 50000000 : ℚ) + (0 : ℚ) = (226114933333 / 50000000 : ℚ) by norm_num]
    refine roundDec_eval_pos' (226114933333 / 50000000 : ℚ) (226114933333 / 50000000 : ℚ) 452229866666 (3 : ℤ) ?_
    norm_num
  have h39 : divD (226114933333 / 50000000 : ℚ) ((3 : ℕ) : ℚ) = (150743288889 / 100000000 : ℚ) := by
    rw [divD, show (226114933333 / 50000000 : ℚ) / ((3 : ℕ) : ℚ) = (226114933333 / 150000000 : ℚ) by norm_num]
    refine roundDec_eval_pos' (226114933333 / 150000000 : ℚ) (150743288889 / 100000000 : ℚ) 150743288889 (3 : ℤ) ?_
    norm_num
  have h40 : smoothStep 3 (226114933333 / 100000000 : ℚ) (0 : ℚ) = (150743288889 / 100000000 : ℚ) := by
    rw [smoothStep, h37, h38, h39]
  have h41 : smoothAvg 3 [(847931 / 125 : ℚ), (0 : ℚ), (0 : ℚ), (0 : ℚ)] = (150743288889 / 100000000 : ℚ) := by
    rw [smoothAvg, h30]
    simp only [List.foldl_cons, List.foldl_nil]
    rw [h36, h40]
  have h42 : divD (57476968889 / 20000000 : ℚ) (150743288889 / 100000000 : ℚ) = (5957662497 / 3125000000 : ℚ) := by
    rw [divD, show (57476968889 / 20000000 : ℚ) / (150743288889 / 100000000 : ℚ) = (287384844445 / 150743288889 : ℚ) by norm_num]
    refine roundDec_eval_pos' (287384844445 / 150743288889 : ℚ) (5957662497 / 3125000000 : ℚ) 190645199904 (0 : ℤ) ?_
    norm_num
  have h43 : decAdd (1 : ℚ) (5957662497 / 3125000000 : ℚ) = (9082662497 / 3125000000 : ℚ) := by
    rw [decAdd, show (1 : ℚ) + (5957662497 / 3125000000 : ℚ) = (9082662497 / 3125000000 : ℚ) by norm_num]
    refine roundDec_eval_pos' (9082662497 / 3125000000 : ℚ) (9082662497 / 3125000000 : ℚ) 290645199904 (0 : ℤ) ?_
    norm_num
  have h44 : divD (100 : ℚ) (9082662497 / 3125000000 : ℚ) = (344062107453 / 10000000000 : ℚ) := by
    rw [divD, show (100 : ℚ) / (9082662497 / 3125000000 : ℚ) = (312500000000 / 9082662497 : ℚ) by norm_num]
    refine roundDec_eval_pos' (312500000000 / 9082662497 : ℚ) (344062107453 / 10000000000 : ℚ) 344062107453 (1 : ℤ) ?_
    norm_num
  have h45 : decSub (100 : ℚ) (344062107453 / 10000000000 : ℚ) = (655937892547 / 10000000000 : ℚ) := by
    rw [decSub, show (100 : ℚ) - (344062107453 / 10000000000 : ℚ) = (655937892547 / 10000000000 : ℚ) by norm_num]
    refine roundDec_eval_pos' (655937892547 / 10000000000 : ℚ) (655937892547 / 10000000000 : ℚ) 655937892547 (1 : ℤ) ?_
    norm_num
  have h46 : finalRsi (57476968889 / 20000000 : ℚ) (150743288889 / 100000000 : ℚ) = (655937892547 / 10000000000 : ℚ) := by
    rw [finalRsi, if_neg (by norm_num), h42, h43, h44, h45]
  rw [compute_rsi_eq_ok [(8029048199 / 25 : ℚ), (40144393064 / 125 : ℚ), (321161853221 / 1000 : ℚ), (32116807683 / 100 : ℚ), (32116807683000000001 / 100000000000 : ℚ)] 3 (by norm_num) (by simp), rsiCore,
    h5, h14, h15, h28, h41, h46]

/-! ## The claims -/

/-- Claim C1: for every closes sequence of length `n ≥ period + 1` and every
`period ≥ 1`, `compute_rsi_from_closes` follows the reference Wilder
algorithm: it forms the `n-1` successive differences, splits each into
`gain = max(diff, 0)` and `loss = max(-diff, 0)`, seeds `avg_gain` and
`avg_loss` as the simple means of the first `period` gains and losses,
applies the Wilder recursion `avg' = (avg * (period-1) + x) / period`
strictly chronologically over the remaining differences, and returns
`100 - 100 / (1 + avg_gain / avg_loss)` when `avg_loss` is nonzero
(`wilderSpec` is that algorithm, written from the specification text). -/
theorem claim_C1_wilder_reference (closes : List ℚ) (p : ℕ) (hp : 1 ≤ p)
    (hlen : p + 1 ≤ closes.length) :
    compute_rsi_from_closes closes p = .ok (wilderSpec closes p) := by
  rw [compute_rsi_eq_ok closes p hp hlen, rsiCore_eq_wilderSpec closes p hp hlen]

/-- Witness for C1 at `closes = [1, 2]`, `period = 1`. -/
theorem claim_C1_witness :
    1 ≤ 1 ∧ 1 + 1 ≤ ([(1 : ℚ), (2 : ℚ)]).length ∧
      compute_rsi_from_closes [(1 : ℚ), (2 : ℚ)] 1 = .ok (wilderSpec [(1 : ℚ), (2 : ℚ)] 1) :=
  ⟨le_rfl, by simp, claim_C1_wilder_reference [(1 : ℚ), (2 : ℚ)] 1 le_rfl (by simp)⟩

/-- Claim C2: `compute_rsi_from_closes` raises the insufficient-data error
exactly when `len(closes) < period + 1`. -/
theorem claim_C2_insufficient_data (closes : List ℚ) (p : ℕ) :
    compute_rsi_from_closes closes p = .error .insufficientData ↔
      closes.length < p + 1 := by
  constructor
  · intro h
    by_contra hlen
    push_neg at hlen
    rcases Nat.eq_zero_or_pos p with rfl | hp
    · rw [compute_period_zero (by omega)] at h
      simp at h
    · rw [compute_rsi_eq_ok closes p hp hlen] at h
      exact Except.noConfusion h
  · exact compute_insufficient

/-- Claim C3: for every valid input (`period ≥ 1`,
`len(closes) ≥ period + 1`) the returned RSI lies in `[0, 100]`,
including under the 12-significant-digit rounding applied at each step
(which the embedding performs in every operation). -/
theorem claim_C3_range (closes : List ℚ) (p : ℕ) (hp : 1 ≤ p)
    (hlen : p + 1 ≤ closes.length) :
    ∃ v, compute_rsi_from_closes closes p = .ok v ∧ 0 ≤ v ∧ v ≤ 100 :=
  ⟨rsiCore closes p, compute_rsi_eq_ok closes p hp hlen,
    (rsiCore_range closes p hp).1, (rsiCore_range closes p hp).2⟩

/-- Witness for C3 at `closes = [1, 2]`, `period = 1`. -/
theorem claim_C3_witness :
    ∃ v, compute_rsi_from_closes [(1 : ℚ), (2 : ℚ)] 1 = .ok v ∧ 0 ≤ v ∧ v ≤ 100 :=
  claim_C3_range [(1 : ℚ), (2 : ℚ)] 1 le_rfl (by simp)

/-- Claim C4: if the final smoothed `avg_loss` is `0` — in particular
whenever the closes sequence is non-decreasing — the function returns
exactly `100`. -/
theorem claim_C4_zero_loss (closes : List ℚ) (p : ℕ) (hp : 1 ≤ p)
    (hlen : p + 1 ≤ closes.length) :
    (smoothAvg p ((diffsOf closes).map lossOf) = 0 →
      compute_rsi_from_closes closes p = .ok 100) ∧
    (List.Chain' (fun a b => a ≤ b) closes →
      compute_rsi_from_closes closes p = .ok 100) := by
  constructor
  · intro h0
    rw [compute_rsi_eq_ok closes p hp hlen, rsiCore, h0, finalRsi, if_pos rfl]
  · intro hmono
    rw [compute_rsi_eq_ok closes p hp hlen, rsiCore_nondecreasing closes p hmono]

/-- Witness for C4 at the non-decreasing input `[1, 1, 2]`, `period = 1`. -/
theorem claim_C4_witness :
    compute_rsi_from_closes [(1 : ℚ), (1 : ℚ), (2 : ℚ)] 1 = .ok 100 :=
  (claim_C4_zero_loss [(1 : ℚ), (1 : ℚ), (2 : ℚ)] 1 le_rfl (by simp)).2
    (by norm_num [List.chain'_cons])

/-- Claim C5: on the classic fifteen-element textbook series with
`period = 14` the function returns `70.4641350211`, which is within
`0.5` of `70.5`. -/
theorem claim_C5_textbook :
    compute_rsi_from_closes [(2217 / 50 : ℚ), (4409 / 100 : ℚ), (883 / 20 : ℚ),
        (4361 / 100 : ℚ), (4433 / 100 : ℚ), (4483 / 100 : ℚ), (451 / 10 : ℚ),
        (2271 / 50 : ℚ), (1146 / 25 : ℚ), (1152 / 25 : ℚ), (4589 / 100 : ℚ),
        (4603 / 100 : ℚ), (4561 / 100 : ℚ), (1157 / 25 : ℚ), (1157 / 25 : ℚ)] 14
      = .ok (704641350211 / 10000000000 : ℚ) ∧
    (70 : ℚ) ≤ 704641350211 / 10000000000 ∧
    (704641350211 / 10000000000 : ℚ) ≤ 71 :=
  ⟨compute_textbook, by norm_num, by norm_num⟩

/-- Counterexample to C6 as stated: with `period = 3`, appending the
strictly greater price `321168076.83000000001` to
`[321161927.96, 321155144.512, 321161853.221, 321168076.830]` makes the
computed RSI drop from `65.5937892548` to `65.5937892547`, because the
12-significant-digit context rounding of the smoothing and ratio steps
outweighs the infinitesimal appended gain. -/
theorem claim_C6_counterexample :
    (32116807683 / 100 : ℚ) < (32116807683000000001 / 100000000000 : ℚ) ∧
    compute_rsi_from_closes [(8029048199 / 25 : ℚ), (40144393064 / 125 : ℚ),
        (321161853221 / 1000 : ℚ), (32116807683 / 100 : ℚ)] 3
      = .ok (163984473137 / 2500000000 : ℚ) ∧
    compute_rsi_from_closes ([(8029048199 / 25 : ℚ), (40144393064 / 125 : ℚ),
        (321161853221 / 1000 : ℚ), (32116807683 / 100 : ℚ)]
          ++ [(32116807683000000001 / 100000000000 : ℚ)]) 3
      = .ok (655937892547 / 10000000000 : ℚ) ∧
    (655937892547 / 10000000000 : ℚ) < (163984473137 / 2500000000 : ℚ) := by
  refine ⟨by norm_num, compute_c6_base, ?_, by norm_num⟩
  rw [show ([(8029048199 / 25 : ℚ), (40144393064 / 125 : ℚ),
      (321161853221 / 1000 : ℚ), (32116807683 / 100 : ℚ)]
        ++ [(32116807683000000001 / 100000000000 : ℚ)])
      = [(8029048199 / 25 : ℚ), (40144393064 / 125 : ℚ), (321161853221 / 1000 : ℚ),
        (32116807683 / 100 : ℚ), (32116807683000000001 / 100000000000 : ℚ)] from rfl]
  exact compute_c6_ext

/-- Claim C6 as amended: for the same Wilder algorithm carried out in
exact rational arithmetic (`rsiExact`, no 12-digit rounding), appending
one strictly greater price never decreases the RSI.  Under the code's
per-operation rounding the inequality can fail by one unit in the last
(twelfth) significant digit, as the counterexample shows. -/
theorem claim_C6_amended (closes : List ℚ) (p : ℕ) (c : ℚ) (hp : 1 ≤ p)
    (hlen : p + 1 ≤ closes.length) (hne : closes ≠ [])
    (hc : closes.getLast hne < c) :
    rsiExact closes p ≤ rsiExact (closes ++ [c]) p :=
  rsiExact_append_le closes p c hp hlen hne hc

/-- Witness for the amended C6 at `closes = [1, 2]`, `c = 3`, `period = 1`. -/
theorem claim_C6_witness :
    rsiExact [(1 : ℚ), (2 : ℚ)] 1 ≤ rsiExact ([(1 : ℚ), (2 : ℚ)] ++ [(3 : ℚ)]) 1 :=
  claim_C6_amended [(1 : ℚ), (2 : ℚ)] 1 3 le_rfl (by simp) (by simp)
    (by show (2 : ℚ) < 3; norm_num)

/-- Counterexample to C7 as stated: `[2, 1, 1]` with `period = 1` is
non-increasing with a strictly negative difference, yet the function
returns `100`, not `0`: the Wilder update with `period = 1` multiplies
the smoothed loss by `period - 1 = 0`, so the final `avg_loss` is `0`
and the zero-loss branch fires. -/
theorem claim_C7_counterexample :
    List.Chain' (fun a b => b ≤ a) [(2 : ℚ), (1 : ℚ), (1 : ℚ)] ∧
    ¬ List.Chain' (fun a b => a ≤ b) [(2 : ℚ), (1 : ℚ), (1 : ℚ)] ∧
    compute_rsi_from_closes [(2 : ℚ), (1 : ℚ), (1 : ℚ)] 1 = .ok 100 ∧
    (100 : ℚ) ≠ 0 :=
  ⟨by norm_num [List.chain'_cons], by norm_num [List.chain'_cons],
    compute_c7_deg, by norm_num⟩

/-- Claim C7 as amended: for `period ≥ 2` (excluding the degenerate
`period = 1` Wilder recursion), every valid non-increasing input with at
least one strictly decreasing step yields exactly `0`. -/
theorem claim_C7_amended (closes : List ℚ) (p : ℕ) (hp : 2 ≤ p)
    (hlen : p + 1 ≤ closes.length)
    (h1 : List.Chain' (fun a b => b ≤ a) closes)
    (h2 : ¬ List.Chain' (fun a b => a ≤ b) closes) :
    compute_rsi_from_closes closes p = .ok 0 := by
  rw [compute_rsi_eq_ok closes p (by omega) hlen,
    rsiCore_nonincreasing closes p hp h1 h2]

/-- Witness for the amended C7 at `closes = [3, 2, 1]`, `period = 2`. -/
theorem claim_C7_witness :
    compute_rsi_from_closes [(3 : ℚ), (2 : ℚ), (1 : ℚ)] 2 = .ok 0 :=
  claim_C7_amended [(3 : ℚ), (2 : ℚ), (1 : ℚ)] 2 le_rfl (by simp)
    (by norm_num [List.chain'_cons]) (by norm_num [List.chain'_cons])

/-- Claim C9: with `period ≥ 1` and `len(closes) ≥ period + 1` the
computation is total and returns a value — and only then; and
`period = 0` with a non-empty closes list passes the length check and
reaches a zero-divisor division in the seed step. -/
theorem claim_C9_totality :
    (∀ (closes : List ℚ) (p : ℕ),
      (∃ v, compute_rsi_from_closes closes p = .ok v) ↔
        1 ≤ p ∧ p + 1 ≤ closes.length) ∧
    (∀ closes : List ℚ, 1 ≤ closes.length →
      compute_rsi_from_closes closes 0 = .error .divByZero) := by
  constructor
  · intro closes p
    constructor
    · rintro ⟨v, hv⟩
      by_contra hcon
      rcases Nat.eq_zero_or_pos p with rfl | hp
      · rcases Nat.lt_or_ge closes.length 1 with hl | hl
        · rw [compute_insufficient (by omega)] at hv
          exact Except.noConfusion hv
        · rw [compute_period_zero hl] at hv
          exact Except.noConfusion hv
      · have hlen : closes.length < p + 1 := by
          by_contra hlen2
          push_neg at hlen2
          exact hcon ⟨hp, hlen2⟩
        rw [compute_insufficient hlen] at hv
        exact Except.noConfusion hv
    · rintro ⟨hp, hlen⟩
      exact ⟨rsiCore closes p, compute_rsi_eq_ok closes p hp hlen⟩
  · intro closes h
    exact compute_period_zero h

/-- Witness for C9: a valid input succeeds; `period = 0` on a non-empty
list raises the division error. -/
theorem claim_C9_witness :
    (∃ v, compute_rsi_from_closes [(1 : ℚ), (2 : ℚ)] 1 = .ok v) ∧
    compute_rsi_from_closes [(5 : ℚ)] 0 = .error .divByZero :=
  ⟨(claim_C9_totality.1 [(1 : ℚ), (2 : ℚ)] 1).mpr ⟨le_rfl, by simp⟩,
    claim_C9_totality.2 [(5 : ℚ)] (by simp)⟩

/-- Claim C10: `get_rsi_from_alpaca` always truncates the fetched closes
to the most recent `period + 1` elements before calling
`compute_rsi_from_closes`, so the smoothing loop runs zero iterations
and the result is the seed-only RSI of the final `period + 1` closes. -/
theorem claim_C10_truncation (closes : List ℚ) (p : ℕ) (hp : 1 ≤ p)
    (hlen : p + 1 ≤ closes.length) :
    get_rsi_from_alpaca closes p
        = compute_rsi_from_closes (closes.drop (closes.length - (p + 1))) p ∧
      get_rsi_from_alpaca closes p
        = .ok (seedOnlyRsi (closes.drop (closes.length - (p + 1))) p) :=
  ⟨get_rsi_truncates hlen, get_rsi_seed_only hp hlen⟩

/-- Witness for C10 at `closes = [1, 2, 3]`, `period = 1`. -/
theorem claim_C10_witness :
    get_rsi_from_alpaca [(1 : ℚ), (2 : ℚ), (3 : ℚ)] 1
        = compute_rsi_from_closes
            ([(1 : ℚ), (2 : ℚ), (3 : ℚ)].drop
              ([(1 : ℚ), (2 : ℚ), (3 : ℚ)].length - (1 + 1))) 1 ∧
      get_rsi_from_alpaca [(1 : ℚ), (2 : ℚ), (3 : ℚ)] 1
        = .ok (seedOnlyRsi
            ([(1 : ℚ), (2 : ℚ), (3 : ℚ)].drop
              ([(1 : ℚ), (2 : ℚ), (3 : ℚ)].length - (1 + 1))) 1) :=
  claim_C10_truncation [(1 : ℚ), (2 : ℚ), (3 : ℚ)] 1 le_rfl (by simp)
